import Mathlib

/-!
Verification of the u-blox tracker firmware (src/tracker.cpp) against its
natural-language specification.

The development shallowly embeds the parts of tracker.cpp that the claims
touch:

* the UBX binary codec: `sendUbxFrame` (the framing/checksum part of
  `sendUbx`, tracker.cpp lines 717-754), `readGpsMsg` (lines 795-881) and
  the acknowledgement polling loop of `sendUbx` (lines 756-790);
* the report queue: `getRecord` (lines 1581-1605), `freeRecord`
  (lines 1608-1615), `incModRecords` (lines 1619-1626) and
  `sendQueuedReports` (lines 1826-1893), with the `FATAL` macro (line 522)
  modelled as an `Except` error carrying the mutated retained state;
* the duty-cycle scheduler: `getSleepTime` (lines 1406-1417), `setTimings`
  (lines 1420-1520), `secondsInDayToWorkingDayStart` (lines 1523-1553),
  `truncateToDay` (lines 1558-1560), `sleepLimitsCheck` (lines 1563-1574)
  and the decision portion of `loop()` (lines 2010-2287).

Machine integers are modelled as `Nat` (for the unsigned C types) and `Int`
(for `time_t`), with explicit `% 2^8`, `% 2^16`, `% 2^32` truncations where
the C code relies on the width of `uint8_t`, `uint16_t` and `uint32_t`.
External collaborators (serial port, cellular modem, accelerometer, clock)
are modelled as oracle inputs: a list of incoming bytes for the serial
stream, per-slot connect/publish outcomes for the uplink, and boolean
results for motion/fix/power-save queries.  Informational counters that no
claim mentions (`numLoops`, `totalPowerSaveSeconds`, `gpsSeconds`, ...) and
the textual record contents are omitted from the state.
-/

namespace Tracker

/-- Decidable equality on `Except`, used to evaluate concrete runs of the
fallible state transformers below. -/
instance {ε α : Type} [DecidableEq ε] [DecidableEq α] : DecidableEq (Except ε α) := fun a b =>
  match a, b with
  | .error x, .error y => decidable_of_iff (x = y) (by simp)
  | .error _, .ok _ => .isFalse (by simp)
  | .ok _, .error _ => .isFalse (by simp)
  | .ok x, .ok y => decidable_of_iff (x = y) (by simp)

/-! ## Configuration constants (tracker.cpp lines 161-319, non-DEV build) -/

def START_TIME_UNIX_UTC : Int := 1469707200
def START_TIME_FULL_WORKING_DAY_OPERATION_UNIX_UTC : Int := 1469707200
def MIN_MOTION_PERIOD_SECONDS : Int := 30
def MAX_MOTION_PERIOD_SECONDS : Int := 60 * 5
def MAX_WAKEUP_PERIOD_SECONDS : Int := 3600 * 2
def TELEMETRY_PERIOD_SECONDS : Int := MAX_WAKEUP_PERIOD_SECONDS
def STATS_PERIOD_SECONDS : Int := TELEMETRY_PERIOD_SECONDS
def REPORT_PERIOD_SECONDS : Int := 60 * 10
def QUEUE_SEND_LEN : Nat := 4
def MIN_TIME_UNIX_UTC : Int := 1451606400
def MAX_NUM_CONSECUTIVE_CONNECT_FAILURES : Nat := 5
def SLOW_OPERATION_NUM_WAKEUPS_PER_WORKING_DAY : Int := 1
def SLOW_OPERATION_MAX_TIME_TO_GPS_FIX_SECONDS : Int := 60 * 10
def START_OF_WORKING_DAY_SECONDS : Int := 3600 * 0
def LENGTH_OF_WORKING_DAY_SECONDS : Int := 3600 * 24
def TIME_SYNC_RETRY_PERIOD_SECONDS : Int := 30
def SLOW_MODE_INTERVAL_SECONDS : Int :=
  LENGTH_OF_WORKING_DAY_SECONDS / (SLOW_OPERATION_NUM_WAKEUPS_PER_WORKING_DAY + 1)
def GPS_UBX_PROTOCOL_HEADER_SIZE : Nat := 6

/-! ## UBX codec: `readGpsMsg` (tracker.cpp lines 795-881)

The parser state mirrors the local variables of `readGpsMsg`: the running
index `x`, the declared payload length `msgLen` (`uint16_t`), the running
checksum pair `ca`/`cb` (`uint32_t`), and `checksumState` (`cks`).  The
caller's buffer is modelled as the list `buf` of bytes written so far: the
C code writes `*(pBuffer + x) = c` and then increments `x`, and `x` starts
at 0 and only ever grows by one on a write, so the i-th element of `buf` is
exactly the byte stored at buffer index i (`buf.length = x` is proved as
part of the invariant below). -/

structure GpsState where
  x : Nat
  msgLen : Nat
  ca : Nat
  cb : Nat
  cks : Nat
  buf : List Nat
  deriving DecidableEq

def initGps : GpsState := ⟨0, 0, 0, 0, 0, []⟩

/-- `ca += c; cb += ca` on `uint32_t`, as in both `sendUbx` and
`readGpsMsg`. -/
def addChk (s : GpsState) (b : Nat) : GpsState :=
  let ca := (s.ca + b) % 4294967296
  { s with ca := ca, cb := (s.cb + ca) % 4294967296 }

/-- `*(pBuffer + x) = c; x++`. -/
def saveByte (s : GpsState) (b : Nat) : GpsState :=
  { s with buf := s.buf ++ [b], x := s.x + 1 }

/-- One iteration of the inner `while` body of `readGpsMsg` on one incoming
byte (tracker.cpp lines 807-859).  `uint8_t c = Serial1.read()` becomes
`b := c % 256`; the branch structure mirrors the C if/else chain, each
branch applying the checksum update (`addChk`) and/or the store
(`saveByte`) exactly when the C code sets `checksum`/`save`. -/
def stepGps (bufferLen : Nat) (s : GpsState) (c : Nat) : GpsState :=
  let b := c % 256
  if s.x = 0 ∧ b = 181 then saveByte s b
  else if s.x = 1 ∧ b = 98 then saveByte s b
  else if s.x = 2 then saveByte (addChk s b) b
  else if s.x = 3 then saveByte (addChk s b) b
  else if s.x = 4 then saveByte (addChk { s with msgLen := b } b) b
  else if s.x = 5 then
    saveByte (addChk { s with msgLen := (s.msgLen + b * 256) % 65536 } b) b
  else if 5 < s.x ∧ s.x < bufferLen ∧ s.x < s.msgLen + GPS_UBX_PROTOCOL_HEADER_SIZE then
    saveByte (addChk s b) b
  else if s.x = s.msgLen + GPS_UBX_PROTOCOL_HEADER_SIZE then
    saveByte (if b = s.ca % 256 then { s with cks := s.cks + 1 } else s) b
  else if s.x = s.msgLen + GPS_UBX_PROTOCOL_HEADER_SIZE + 1 then
    saveByte (if b = s.cb % 256 then { s with cks := s.cks + 1 } else s) b
  else s

/-- The byte-consuming loop of `readGpsMsg`: bytes that arrive before the
`waitMilliseconds` timeout are the list `input`; the loop guard
`Serial1.available() && (checksumState != 2) && (x < bufferLen)` becomes
the stopping condition.  (When `x` reaches `bufferLen` with an incomplete
frame the C code spins in the outer `do`/`while` until the timeout and then
returns 0, which coincides with stopping here.) -/
def runGps (bufferLen : Nat) : List Nat → GpsState → GpsState
  | [], s => s
  | c :: rest, s =>
    if s.cks ≠ 2 ∧ s.x < bufferLen then runGps bufferLen rest (stepGps bufferLen s c)
    else s

/-- `readGpsMsg` (tracker.cpp lines 795-881): returns the byte count
(0 unless a complete frame passed both checksum bytes) and the contents of
the caller's buffer. -/
def readGpsMsg (bufferLen : Nat) (input : List Nat) : Nat × List Nat :=
  let s := runGps bufferLen input initGps
  (if s.cks = 2 then s.x else 0, s.buf)

/-! ## UBX codec: the framing part of `sendUbx` (tracker.cpp lines 717-754) -/

/-- One step of the running checksum `ca += c; cb += ca` over `uint32_t`. -/
def ubxStep (p : Nat × Nat) (c : Nat) : Nat × Nat :=
  let ca := (p.1 + c) % 4294967296
  (ca, (p.2 + ca) % 4294967296)

/-- The checksum pair accumulated over a byte list, starting from 0/0 as in
`sendUbx`. -/
def ubxChecksum (l : List Nat) : Nat × Nat := l.foldl ubxStep (0, 0)

/-- The exact byte stream `sendUbx msgClass msgId pBuf msgLen` writes to the
serial port: sync bytes, class, id, 16-bit little-endian length, payload,
and the two checksum bytes `ca & 0xFF`, `cb & 0xFF` accumulated over class,
id, length and payload only (`cls`/`msgId` are the `uint8_t` parameters
`msgClass`/`msgId`). -/
def sendUbxFrame (cls msgId : Nat) (payload : List Nat) : List Nat :=
  let msgLen := payload.length
  let ck := ubxChecksum ([cls, msgId, msgLen % 256, msgLen / 256 % 256] ++ payload)
  [181, 98, cls, msgId, msgLen % 256, msgLen / 256 % 256] ++ payload ++ [ck.1 % 256, ck.2 % 256]

/-! ## Acknowledgement polling of `sendUbx` (tracker.cpp lines 756-790)

When `checkAck` is set, `sendUbx` repeatedly calls
`readGpsMsg(buffer, 32, GPS_WAIT_FOR_RESPONSE_MILLISECONDS)` until either a
matching ACK/NACK is seen or `GPS_WAIT_FOR_ACK_MILLISECONDS` elapse.  The
serial bytes available at each poll are the elements of `polls`; the
timeout is the exhaustion of that list.  Before the polling loop `i` holds
the number of bytes written (`msgLen + 8` when the serial writes all
succeed, which is how the collaborator is modelled). -/

def sendUbxCheckAck (cls msgId msgLen : Nat) : List (List Nat) → Int
  | [] => -2
  | p :: rest =>
    let r := readGpsMsg 32 p
    if r.1 = 10 ∧ r.2.getD 4 0 = 2 ∧ r.2.getD 5 0 = 0 ∧ r.2.getD 6 0 = cls ∧
        r.2.getD 7 0 = msgId ∧ r.2.getD 2 0 = 5 then
      if r.2.getD 3 0 ≠ 1 then -1 else (msgLen : Int) + 8
    else sendUbxCheckAck cls msgId msgLen rest

/-- A poll result that the ack loop recognises as an ACK or NACK for the
given class/id (tracker.cpp line 771). -/
def isAckNackFor (cls msgId : Nat) (p : List Nat) : Bool :=
  let r := readGpsMsg 32 p
  r.1 == 10 && r.2.getD 4 0 == 2 && r.2.getD 5 0 == 0 && r.2.getD 6 0 == cls &&
    r.2.getD 7 0 == msgId && r.2.getD 2 0 == 5

/-- Among the recognised frames, the ACK ones (`buffer[3] == 0x01`,
tracker.cpp line 773). -/
def isAckPositive (p : List Nat) : Bool :=
  (readGpsMsg 32 p).2.getD 3 0 == 1

/-! ## Retained state and the report queue (tracker.cpp lines 326-455,
1576-1893)

`Rec` models `Record_t` without the textual `contents` buffer (no claim
mentions the contents).  `RState` models the retained structure `r`
together with the two file-scope globals that the embedded functions read
(`statsPeriodSeconds`, `numConsecutiveConnectFailures`); informational
counters that no claim mentions are omitted.  `gpsOn` models the physical
GPS power pin (D2): `resetRetained` zeroes the shadow copy in `r` but not
the pin, and every `loop()` path that calls `resetRetained` switches the
pin off immediately afterwards, so a single boolean suffices. -/

inductive FatalType where
  | FATAL_TYPE_NULL
  | FATAL_RECORDS_OVERRUN_1
  | FATAL_RECORDS_OVERRUN_2
  | FATAL_RECORDS_OVERRUN_3
  deriving DecidableEq

inductive RecordType where
  | RECORD_TYPE_NULL
  | RECORD_TYPE_TELEMETRY
  | RECORD_TYPE_GPS
  | RECORD_TYPE_STATS
  deriving DecidableEq

structure Rec where
  isUsed : Bool
  rtype : RecordType
  deriving DecidableEq

def nullRec : Rec := ⟨false, .RECORD_TYPE_NULL⟩

structure RState where
  sleepStartSeconds : Int
  minSleepPeriodSeconds : Int
  sleepForSeconds : Int
  modemStaysAwake : Bool
  lastGpsSeconds : Int
  lastTelemetrySeconds : Int
  lastStatsSeconds : Int
  lastReportSeconds : Int
  lastMotionSeconds : Int
  lastColdStartSeconds : Int
  gpsFixRequested : Bool
  gpsOn : Bool
  records : List Rec
  currentRecord : Nat
  nextPubRecord : Nat
  numRecordsQueued : Nat
  powerSaveTime : Int
  numPublishAttempts : Nat
  numPublishFailed : Nat
  numConnectAttempts : Nat
  numConnectFailed : Nat
  numFatals : Nat
  fatalList : List FatalType
  statsPeriodSeconds : Int
  numConsecutiveConnectFailures : Nat
  deriving DecidableEq

/-- The all-zero retained structure over a records array of `cap` slots,
with the two globals at their file-scope initialisers. -/
def zeroRState (cap : Nat) : RState where
  sleepStartSeconds := 0
  minSleepPeriodSeconds := 0
  sleepForSeconds := 0
  modemStaysAwake := false
  lastGpsSeconds := 0
  lastTelemetrySeconds := 0
  lastStatsSeconds := 0
  lastReportSeconds := 0
  lastMotionSeconds := 0
  lastColdStartSeconds := 0
  gpsFixRequested := false
  gpsOn := false
  records := List.replicate cap nullRec
  currentRecord := 0
  nextPubRecord := 0
  numRecordsQueued := 0
  powerSaveTime := 0
  numPublishAttempts := 0
  numPublishFailed := 0
  numConnectAttempts := 0
  numConnectFailed := 0
  numFatals := 0
  fatalList := List.replicate 20 .FATAL_TYPE_NULL
  statsPeriodSeconds := STATS_PERIOD_SECONDS
  numConsecutiveConnectFailures := 0

/-- `resetRetained` (tracker.cpp lines 586-592): `memset(&r, 0, sizeof(r))`.
The file-scope globals and the GPS power pin are untouched. -/
def resetRetainedS (s : RState) : RState :=
  { zeroRState s.records.length with
    statsPeriodSeconds := s.statsPeriodSeconds
    numConsecutiveConnectFailures := s.numConsecutiveConnectFailures
    gpsOn := s.gpsOn }

/-- The `FATAL` macro (tracker.cpp line 522): record the code in the fatal
list if there is room, bump `numFatals`, and `System.reset()` — the reset
is modelled as the `Except.error` constructor carrying the mutated state. -/
def fatalR (ft : FatalType) (s : RState) : FatalType × RState :=
  (ft, { s with
          fatalList := if s.numFatals < 20 then s.fatalList.set s.numFatals ft else s.fatalList
          numFatals := s.numFatals + 1 })

/-- `incModRecords` (tracker.cpp lines 1619-1626); the record capacity
`sizeof(r.records)/sizeof(r.records[0])` is passed as `cap`. -/
def incModRecords (cap x : Nat) : Nat :=
  if x + 1 ≥ cap then 0 else x + 1

/-- `getRecord` (tracker.cpp lines 1581-1605).  Returns the index of the
slot handed to the caller (the C code returns the pointer
`r.records[r.currentRecord].contents`). -/
def getRecord (t : RecordType) (s : RState) : Except (FatalType × RState) (Nat × RState) :=
  let cap := s.records.length
  if s.currentRecord < cap then
    let s :=
      if (s.records.getD s.currentRecord nullRec).isUsed then s
      else { s with numRecordsQueued := s.numRecordsQueued + 1 }
    if s.numRecordsQueued < cap then
      let s := { s with records := s.records.set s.currentRecord ⟨true, t⟩ }
      .ok (s.currentRecord, { s with currentRecord := incModRecords cap s.currentRecord })
    else .error (fatalR .FATAL_RECORDS_OVERRUN_2 s)
  else .error (fatalR .FATAL_RECORDS_OVERRUN_1 s)

/-- `freeRecord` (tracker.cpp lines 1608-1615), with the non-NULL pointer
given as the slot index. -/
def freeRecord (i : Nat) (s : RState) : RState :=
  { s with
    records := s.records.set i { s.records.getD i nullRec with isUsed := false }
    numRecordsQueued := if s.numRecordsQueued > 0 then s.numRecordsQueued - 1 else s.numRecordsQueued }

/-- The result of one `connect()` call (tracker.cpp lines 1327-1352), as
reported by the cellular collaborator: the modem was already connected, a
fresh connect attempt succeeded, or the attempt timed out. -/
inductive ConnectResult where
  | alreadyConnected
  | freshOk
  | fail
  deriving DecidableEq

/-- Counter side effects and the boolean result of `connect()`. -/
def applyConnect (res : ConnectResult) (s : RState) : Bool × RState :=
  match res with
  | .alreadyConnected => (true, { s with numConsecutiveConnectFailures := 0 })
  | .freshOk => (true, { s with numConnectAttempts := s.numConnectAttempts + 1 })
  | .fail =>
    (false, { s with
              numConnectAttempts := s.numConnectAttempts + 1
              numConnectFailed := s.numConnectFailed + 1
              numConsecutiveConnectFailures := s.numConsecutiveConnectFailures + 1 })

/-- The loop-carried locals of `sendQueuedReports`. -/
structure SqrAcc where
  s : RState
  failedCount : Nat
  sentCount : Nat
  gpsSent : Bool
  deriving DecidableEq

/-- The body of the `while` loop of `sendQueuedReports` for one in-use slot
`x` (tracker.cpp lines 1839-1875): connect, publish, free on success, count
the failure otherwise, and advance `nextPubRecord` only while no failure
has occurred yet in this pass.  `outcome x` is the uplink collaborator's
behaviour at slot `x`: the `connect()` result and whether
`Particle.publish` returns true. -/
def processSlot (outcome : Nat → ConnectResult × Bool) (x : Nat) (acc : SqrAcc) : SqrAcc :=
  let cap := acc.s.records.length
  let (connRes, pubOk) := outcome x
  let (connected, s) := applyConnect connRes acc.s
  let acc :=
    if connected then
      let s := { s with numPublishAttempts := s.numPublishAttempts + 1 }
      if pubOk then
        let gpsSent := acc.gpsSent ||
          ((s.records.getD x nullRec).rtype == .RECORD_TYPE_GPS)
        { acc with s := freeRecord x s, sentCount := acc.sentCount + 1, gpsSent := gpsSent }
      else
        { acc with s := { s with numPublishFailed := s.numPublishFailed + 1 }
                   failedCount := acc.failedCount + 1 }
    else { acc with s := s, failedCount := acc.failedCount + 1 }
  if acc.failedCount = 0 then
    { acc with s := { acc.s with nextPubRecord := incModRecords cap acc.s.nextPubRecord } }
  else acc

/-- The `while (x != r.currentRecord)` loop of `sendQueuedReports`
(tracker.cpp lines 1836-1882).  `fuel` bounds the number of iterations; the
callers pass `records.length + 1`, which is enough for every state whose
cursors are in range (the C loop visits at most capacity - 1 slots). -/
def sqrLoop (outcome : Nat → ConnectResult × Bool) :
    Nat → Nat → SqrAcc → Except (FatalType × RState) SqrAcc
  | fuel, x, acc =>
    if x = acc.s.currentRecord then .ok acc
    else
      match fuel with
      | 0 => .ok acc
      | fuel + 1 =>
        let cap := acc.s.records.length
        if x < cap then
          let acc2 :=
            if (acc.s.records.getD x nullRec).isUsed then processSlot outcome x acc
            else acc
          sqrLoop outcome fuel (incModRecords cap x) acc2
        else .error (fatalR .FATAL_RECORDS_OVERRUN_3 acc.s)

/-- `sendQueuedReports` (tracker.cpp lines 1826-1893): run the loop from
`nextPubRecord`, then apply the final wrap adjustment (lines 1886-1890):
if a publish failure occurred and `nextPubRecord` equals `currentRecord`,
nudge `nextPubRecord` forward one slot.  Returns the state and
`atLeastOneGpsReportSent`. -/
def sendQueuedReports (outcome : Nat → ConnectResult × Bool) (s : RState) :
    Except (FatalType × RState) (RState × Bool) :=
  match sqrLoop outcome (s.records.length + 1) s.nextPubRecord ⟨s, 0, 0, false⟩ with
  | .error e => .error e
  | .ok acc =>
    let t := acc.s
    let t :=
      if acc.failedCount > 0 ∧ t.nextPubRecord = t.currentRecord then
        { t with nextPubRecord := incModRecords t.records.length t.nextPubRecord }
      else t
    .ok (t, acc.gpsSent)

/-! ## Duty-cycle scheduler (tracker.cpp lines 1354-1574 and 2010-2287) -/

/-- `getSleepTime` (tracker.cpp lines 1406-1417). -/
def getSleepTime (now lastTime period : Int) : Int :=
  if lastTime > 0 then
    let d := period - (now - lastTime)
    if d < 0 then 0 else d
  else period

/-- `sleepLimitsCheck` (tracker.cpp lines 1563-1574). -/
def sleepLimitsCheck (sleepForSeconds : Int) : Int :=
  if sleepForSeconds < 0 then 0
  else if sleepForSeconds > MAX_WAKEUP_PERIOD_SECONDS then MAX_WAKEUP_PERIOD_SECONDS
  else sleepForSeconds

/-- `truncateToDay` (tracker.cpp lines 1558-1560). -/
def truncateToDay (unixTime : Int) : Int :=
  unixTime / (3600 * 24) * (3600 * 24)

/-- `Time.hour()*3600 + Time.minute()*60 + Time.second()` for a UTC clock
(tracker.cpp line 2058). -/
def secondsSinceMidnight (now : Int) : Int := now % 86400

/-- `secondsInDayToWorkingDayStart` (tracker.cpp lines 1523-1553),
including the slow-mode fold-in of lines 1546-1550. -/
def secondsInDayToWorkingDayStart (now secondsToday : Int) : Int :=
  let seconds : Int :=
    if secondsToday < START_OF_WORKING_DAY_SECONDS then
      START_OF_WORKING_DAY_SECONDS - secondsToday
    else if secondsToday > START_OF_WORKING_DAY_SECONDS + LENGTH_OF_WORKING_DAY_SECONDS then
      START_OF_WORKING_DAY_SECONDS + 3600 * 24 - secondsToday
    else 0
  if now + seconds < START_TIME_FULL_WORKING_DAY_OPERATION_UNIX_UTC then
    seconds + SLOW_MODE_INTERVAL_SECONDS
  else seconds

/-- The timer-minimum tail of the full-working-day branch of `setTimings`
(tracker.cpp lines 1450-1482): fold the telemetry, stats and queued-report
timers into `sleepForSeconds`, then make sure `minSleepPeriodSeconds` does
not exceed it. -/
def setTimingsTimers (now sf0 minS0 : Int) (s : RState) : Int × RState :=
  let x := getSleepTime now s.lastTelemetrySeconds TELEMETRY_PERIOD_SECONDS
  let sf := if x < sf0 then x else sf0
  let x := getSleepTime now s.lastStatsSeconds s.statsPeriodSeconds
  let sf := if x < sf then x else sf
  let sf :=
    if s.numRecordsQueued > 0 then
      let x := getSleepTime now s.lastReportSeconds REPORT_PERIOD_SECONDS
      if x < sf then x else sf
    else sf
  let minS := if sf < minS0 then sf else minS0
  (sf, { s with minSleepPeriodSeconds := minS })

/-- `setTimings` (tracker.cpp lines 1420-1520).  Returns the computed
`sleepForSeconds` and the state, whose `minSleepPeriodSeconds` receives the
value written through `pMinSleepPeriodSeconds`.  In the fix-failure case
the function queues a dummy GPS report (line 1444), which goes through
`getRecord` and can therefore hit the fatal path. -/
def setTimings (now ssm : Int) (atLeastOneValidGpsReportSent fixAchieved : Bool)
    (s : RState) : Except (FatalType × RState) (Int × RState) :=
  if now ≥ START_TIME_FULL_WORKING_DAY_OPERATION_UNIX_UTC then
    if s.gpsOn then
      -- still looking for a fix: wake again after the minimum period
      .ok (setTimingsTimers now MIN_MOTION_PERIOD_SECONDS MIN_MOTION_PERIOD_SECONDS s)
    else
      if s.gpsFixRequested && !fixAchieved then
        match getRecord .RECORD_TYPE_GPS s with
        | .error e => .error e
        | .ok (_, s1) =>
          .ok (setTimingsTimers now TELEMETRY_PERIOD_SECONDS MAX_MOTION_PERIOD_SECONDS
                { s1 with gpsFixRequested := false })
      else
        .ok (setTimingsTimers now TELEMETRY_PERIOD_SECONDS MIN_MOTION_PERIOD_SECONDS
              { s with gpsFixRequested := false })
  else
    -- "slow mode" operation (lines 1483-1510)
    let sf : Int :=
      if atLeastOneValidGpsReportSent ||
          (now - s.lastColdStartSeconds > SLOW_OPERATION_MAX_TIME_TO_GPS_FIX_SECONDS) then
        let x := ssm - START_OF_WORKING_DAY_SECONDS
        let x := if x < 0 then 0 else x
        let numIntervalsPassed := x / SLOW_MODE_INTERVAL_SECONDS
        let sf := START_OF_WORKING_DAY_SECONDS +
          (numIntervalsPassed + 1) * SLOW_MODE_INTERVAL_SECONDS - ssm
        let sf :=
          if numIntervalsPassed ≥ SLOW_OPERATION_NUM_WAKEUPS_PER_WORKING_DAY then
            3600 * 24 - ssm + START_OF_WORKING_DAY_SECONDS + SLOW_MODE_INTERVAL_SECONDS
          else sf
        if now + sf ≥ START_TIME_FULL_WORKING_DAY_OPERATION_UNIX_UTC then
          START_TIME_FULL_WORKING_DAY_OPERATION_UNIX_UTC - now
        else sf
      else MIN_MOTION_PERIOD_SECONDS
    .ok (sf, { s with minSleepPeriodSeconds := MIN_MOTION_PERIOD_SECONDS })

/-- The external inputs of one `loop()` iteration: the clock, the outcome
of `establishTime()`, the motion interrupt, the GPS fix attempt, the GPS
power-save query, the presence of the accelerometer, and the uplink
behaviour for `sendQueuedReports`. -/
structure LoopCtx where
  establishOk : Bool
  now : Int
  inMotion : Bool
  fixAchieved : Bool
  gpsCanSave : Bool
  accelerometerConnected : Bool
  outcome : Nat → ConnectResult × Bool

/-- The per-wake resets at the top of the in-working-day branch of
`loop()` (tracker.cpp lines 2077-2087). -/
def nwInit (s : RState) : RState :=
  { s with
    sleepForSeconds := MIN_MOTION_PERIOD_SECONDS
    minSleepPeriodSeconds := MIN_MOTION_PERIOD_SECONDS
    modemStaysAwake := false }

/-- The telemetry-report stage (tracker.cpp lines 2089-2098); the boolean
is `forceSend`. -/
def nwTelemetry (c : LoopCtx) (s : RState) : Except (FatalType × RState) (Bool × RState) :=
  if c.now - s.lastTelemetrySeconds ≥ TELEMETRY_PERIOD_SECONDS then
    match getRecord .RECORD_TYPE_TELEMETRY { s with lastTelemetrySeconds := c.now } with
    | .error e => .error e
    | .ok (_, s1) => .ok (true, s1)
  else .ok (false, s)

/-- The stats-report stage (tracker.cpp lines 2101-2104). -/
def nwStats (c : LoopCtx) (s : RState) : Except (FatalType × RState) RState :=
  if c.now - s.lastStatsSeconds ≥ s.statsPeriodSeconds then
    match getRecord .RECORD_TYPE_STATS { s with lastStatsSeconds := c.now } with
    | .error e => .error e
    | .ok (_, s1) => .ok s1
  else .ok s

/-- The GPS stage (tracker.cpp lines 2107-2126): when a fix is wanted or
there is no accelerometer, `gpsUpdate` powers the GPS on and leaves it on;
the boolean is whether a fix was achieved and queued. -/
def nwGps (c : LoopCtx) (s : RState) : Except (FatalType × RState) (Bool × RState) :=
  if s.gpsFixRequested || !c.accelerometerConnected then
    let s := { s with gpsOn := true }
    if c.fixAchieved then
      match getRecord .RECORD_TYPE_GPS { s with lastGpsSeconds := c.now } with
      | .error e => .error e
      | .ok (_, s1) => .ok (true, s1)
    else .ok (false, s)
  else .ok (false, s)

/-- The GPS power-save stage (tracker.cpp lines 2129-2131). -/
def nwPower (c : LoopCtx) (s : RState) : RState :=
  if s.gpsOn && c.gpsCanSave then { s with gpsOn := false } else s

/-- The queued-report send stage (tracker.cpp lines 2134-2146); the boolean
is `atLeastOneValidGpsReportSent`. -/
def nwReports (c : LoopCtx) (forceSend fixAchieved : Bool) (s : RState) :
    Except (FatalType × RState) (Bool × RState) :=
  if forceSend || c.now - s.lastReportSeconds ≥ REPORT_PERIOD_SECONDS ||
      s.numRecordsQueued ≥ QUEUE_SEND_LEN then
    let s := if s.numRecordsQueued ≥ QUEUE_SEND_LEN then
        { s with modemStaysAwake := true } else s
    match sendQueuedReports c.outcome s with
    | .error e => .error e
    | .ok (s1, gpsSent) =>
      .ok (gpsSent && fixAchieved, { s1 with lastReportSeconds := c.now })
  else .ok (false, s)

/-- The slow-mode wrap-up stage (tracker.cpp lines 2150-2162). -/
def nwSlow (c : LoopCtx) (av : Bool) (s : RState) : RState :=
  if c.now < START_TIME_FULL_WORKING_DAY_OPERATION_UNIX_UTC then
    if !av && (c.now - s.lastColdStartSeconds ≤ SLOW_OPERATION_MAX_TIME_TO_GPS_FIX_SECONDS) then
      { s with modemStaysAwake := true }
    else
      { resetRetainedS s with gpsOn := false, modemStaysAwake := false }
  else s

/-- The in-working-day, not-woken-early body of `loop()` (tracker.cpp lines
2077-2165): reset the per-wake sleep parameters, queue telemetry/stats/GPS
reports as due, switch GPS off if it can power save, send the queued
reports when due, handle the slow-mode wrap-up, and call `setTimings`. -/
def normalWake (c : LoopCtx) (ssm : Int) (s : RState) : Except (FatalType × RState) RState :=
  match nwTelemetry c (nwInit s) with
  | .error e => .error e
  | .ok (forceSend, s) =>
  match nwStats c s with
  | .error e => .error e
  | .ok s =>
  match nwGps c s with
  | .error e => .error e
  | .ok (fixAchieved, s) =>
  match nwReports c forceSend fixAchieved (nwPower c s) with
  | .error e => .error e
  | .ok (atLeastOneValidGpsReportSent, s) =>
  match setTimings c.now ssm atLeastOneValidGpsReportSent fixAchieved
      (nwSlow c atLeastOneValidGpsReportSent s) with
  | .error e => .error e
  | .ok (sf, s) => .ok { s with sleepForSeconds := sf }

/-- The decision portion of `loop()` before the final negative-sleep catch
(tracker.cpp lines 2010-2212). -/
def loopCore (c : LoopCtx) (s : RState) : Except (FatalType × RState) RState :=
  -- slow-operation overrides at the top of the loop (lines 2034-2037)
  let s :=
    if c.now < START_TIME_FULL_WORKING_DAY_OPERATION_UNIX_UTC then
      { s with statsPeriodSeconds := MIN_MOTION_PERIOD_SECONDS, gpsFixRequested := true }
    else s
  if c.establishOk then
    let s := if s.sleepStartSeconds < MIN_TIME_UNIX_UTC then
        { s with sleepStartSeconds := c.now } else s
    if c.now ≥ START_TIME_UNIX_UTC then
      let ssm := secondsSinceMidnight c.now
      if START_OF_WORKING_DAY_SECONDS ≤ ssm ∧
          ssm ≤ START_OF_WORKING_DAY_SECONDS + LENGTH_OF_WORKING_DAY_SECONDS then
        -- inside the working day
        let s := if c.inMotion then
            { s with gpsFixRequested := true, lastMotionSeconds := c.now } else s
        match ((if c.now ≥ s.sleepStartSeconds + s.minSleepPeriodSeconds then
                normalWake c ssm s
              else
                -- woken early: back to sleep for the remaining time (2167-2175)
                let sf := sleepLimitsCheck (s.minSleepPeriodSeconds - (c.now - s.sleepStartSeconds))
                .ok { s with
                      sleepForSeconds := sf
                      minSleepPeriodSeconds :=
                        if sf ≤ MAX_MOTION_PERIOD_SECONDS then sf
                        else MAX_MOTION_PERIOD_SECONDS }) : Except (FatalType × RState) RState) with
        | .error e => .error e
        | .ok s => .ok { s with powerSaveTime := c.now }
      else
        -- awake outside the working day (lines 2176-2185)
        let s := resetRetainedS s
        .ok { s with
              sleepForSeconds := secondsInDayToWorkingDayStart c.now ssm
              gpsOn := false
              modemStaysAwake := false
              powerSaveTime := c.now }
    else
      -- awake before the start time (lines 2186-2202)
      let s := resetRetainedS s
      let sf := START_TIME_UNIX_UTC - c.now
      let sf :=
        if c.now + sf < START_TIME_FULL_WORKING_DAY_OPERATION_UNIX_UTC then
          truncateToDay START_TIME_UNIX_UTC - c.now + START_OF_WORKING_DAY_SECONDS +
            SLOW_MODE_INTERVAL_SECONDS
        else sf
      .ok { s with
            sleepForSeconds := sf
            gpsOn := false
            modemStaysAwake := false
            powerSaveTime := c.now }
  else
    -- time could not be established (lines 2206-2212)
    .ok { s with
          sleepForSeconds := TIME_SYNC_RETRY_PERIOD_SECONDS
          gpsOn := false
          modemStaysAwake := true }

/-- One full `loop()` decision: the branches above, the negative-sleep
catch (lines 2214-2217), and the record of when the sleep started (line
2258).  The resulting `sleepForSeconds` / `modemStaysAwake` are exactly the
values handed to `System.sleep` (lines 2256-2286). -/
def loopStep (c : LoopCtx) (s : RState) : Except (FatalType × RState) RState :=
  match loopCore c s with
  | .error e => .error e
  | .ok s1 =>
    let s2 := if s1.sleepForSeconds < 0 then { s1 with sleepForSeconds := 0 } else s1
    .ok { s2 with sleepStartSeconds := c.now }

/-! ## Auxiliary definitions used by the theorems -/

/-- The parser invariant maintained by `stepGps`: the buffer holds exactly
the `x` bytes written so far (all reduced mod 256), the sync bytes are in
place once read, from position 6 on `msgLen` agrees with the length field
stored in the buffer, `checksumState` counts matched checksum bytes, and
the running pair `ca`/`cb` is the checksum of the class/id/length/payload
bytes seen so far. -/
def GpsInv (s : GpsState) : Prop :=
  s.buf.length = s.x ∧
  (∀ b ∈ s.buf, b < 256) ∧
  (1 ≤ s.x → s.buf.getD 0 0 = 181) ∧
  (2 ≤ s.x → s.buf.getD 1 0 = 98) ∧
  (s.x = 5 → s.msgLen = s.buf.getD 4 0) ∧
  (6 ≤ s.x → s.msgLen = s.buf.getD 4 0 + s.buf.getD 5 0 * 256) ∧
  s.cks ≤ 2 ∧
  (1 ≤ s.cks → s.msgLen + 7 ≤ s.x) ∧
  s.x ≤ s.msgLen + 8 ∧
  (s.cks = 1 ∧ s.x = s.msgLen + 7 → s.buf.getD (s.msgLen + 6) 0 = s.ca % 256) ∧
  (s.cks = 2 →
    s.x = s.msgLen + 8 ∧ s.buf.getD (s.msgLen + 6) 0 = s.ca % 256 ∧
      s.buf.getD (s.msgLen + 7) 0 = s.cb % 256) ∧
  (s.ca, s.cb) = List.foldl ubxStep (0, 0) ((s.buf.drop 2).take (s.msgLen + 4))

/-- Distance from slot `x` to slot `y` walking forward modulo `cap`. -/
def distMod (cap x y : Nat) : Nat := (y + cap - x) % cap

/-- The sequence of slots the `sendQueuedReports` loop visits, starting at
`x` and stopping at `y`, with the same fuel bound as `sqrLoop`. -/
def slotsWalk (cap : Nat) : Nat → Nat → Nat → List Nat
  | 0, _, _ => []
  | fuel + 1, x, y => if x = y then [] else x :: slotsWalk cap fuel (incModRecords cap x) y

/-- Whether the uplink outcome at a slot counts as a failure of the pass:
the connect failed, or the connect succeeded and the publish returned
false. -/
def isFailOutcome (o : ConnectResult × Bool) : Bool :=
  match o with
  | (.fail, _) => true
  | (_, pub) => !pub

/-- `getRecord` called `n` times in a row with no intervening release. -/
def allocCalls : Nat → RState → Except (FatalType × RState) RState
  | 0, s => .ok s
  | n + 1, s =>
    match getRecord .RECORD_TYPE_TELEMETRY s with
    | .error e => .error e
    | .ok (_, s1) => allocCalls n s1

/-- The fatal code of a reset, if one happened. -/
def fatalCodeOf : Except (FatalType × RState) RState → Option FatalType
  | .error (ft, _) => some ft
  | .ok _ => none

/-- The retained state recorded by a reset, if one happened. -/
def fatalStateOf : Except (FatalType × RState) RState → Option RState
  | .error (_, st) => some st
  | .ok _ => none

/-- After `k` allocations from the empty queue, the slot about to be
written is in bounds and the records array still has its 23 slots (true
vacuously once the fatal path has fired, since no further write occurs). -/
def c4InBounds (k : Nat) : Bool :=
  match allocCalls k (zeroRState 23) with
  | .ok s => decide (s.currentRecord < s.records.length) && decide (s.records.length = 23)
  | .error _ => true

def usedGpsRec : Rec := ⟨true, .RECORD_TYPE_GPS⟩
def usedTelRec : Rec := ⟨true, .RECORD_TYPE_TELEMETRY⟩

/-- The queue state after a flush, when no fatal reset occurred. -/
def queueAfter (outcome : Nat → ConnectResult × Bool) (s : RState) : Option RState :=
  (sendQueuedReports outcome s).toOption.map Prod.fst

/-- Uplink that is already connected and publishes everything. -/
def okOutcome : Nat → ConnectResult × Bool := fun _ => (.alreadyConnected, true)

/-- Uplink whose connect attempts all time out. -/
def failOutcome : Nat → ConnectResult × Bool := fun _ => (.fail, false)

/-- C1 counterexample fixture: capacity 23, slot 0 in use, slot 1 free,
slot 2 in use, write cursor at 3, publish cursor at 0.  (This shape is
reachable: a pass that fails on an earlier record while a later one
succeeds leaves a freed hole behind the frozen cursor.) -/
def c1State : RState :=
  { zeroRState 23 with
    records := ((List.replicate 23 nullRec).set 0 usedGpsRec).set 2 usedTelRec
    currentRecord := 3
    nextPubRecord := 0
    numRecordsQueued := 2 }

/-- C1 counterexample uplink: connected, publish succeeds everywhere except
slot 2. -/
def c1Outcome : Nat → ConnectResult × Bool := fun k => (.alreadyConnected, k != 2)

/-- C3 fixture from the claim: capacity 4, records A,B,C,D all in use,
publish cursor at A (slot 0), write cursor just past D, i.e. wrapped back
onto slot 0. -/
def c3FullState : RState :=
  { zeroRState 4 with
    records := [usedTelRec, usedTelRec, usedTelRec, usedTelRec]
    currentRecord := 0
    nextPubRecord := 0
    numRecordsQueued := 4 }

/-- C3 amended fixture: capacity 4, records A,B,C in use at slots 0,1,2,
write cursor at slot 3. -/
def c3PartState : RState :=
  { zeroRState 4 with
    records := [usedTelRec, usedTelRec, usedTelRec, nullRec]
    currentRecord := 3
    nextPubRecord := 0
    numRecordsQueued := 3 }

/-- C3 uplink: connected, only the publish of B (slot 1) fails. -/
def c3Outcome : Nat → ConnectResult × Bool := fun k => (.alreadyConnected, k != 1)

/-- C5 counterexample: time established, 1460000000 is after the sanity
floor and more than `MAX_WAKEUP_PERIOD_SECONDS` before the start time. -/
def c5State : RState := { zeroRState 23 with sleepStartSeconds := 1460000000 }

def c5Ctx : LoopCtx :=
  { establishOk := true, now := 1460000000, inMotion := false, fixAchieved := false
    gpsCanSave := false, accelerometerConnected := true, outcome := okOutcome }

/-- C5 witness fixture: a wake on which time cannot be established. -/
def c5wState : RState := zeroRState 23

def c5wCtx : LoopCtx :=
  { establishOk := false, now := 0, inMotion := false, fixAchieved := false
    gpsCanSave := false, accelerometerConnected := true, outcome := okOutcome }

def c5wOut : RState := ((loopStep c5wCtx c5wState).toOption).getD (zeroRState 0)

/-- C6 counterexample, wake 1: full operation (now ≥ the full-operation
start time), no motion, no accelerometer, a fix achieved and one report
already queued; the report timer (due in 570 s) wins. -/
def c6Now : Int := 1469750400

def c6State1 : RState :=
  { zeroRState 3 with
    sleepStartSeconds := c6Now - 100
    minSleepPeriodSeconds := 30
    sleepForSeconds := 30
    lastTelemetrySeconds := c6Now - 3600
    lastStatsSeconds := c6Now - 3600
    lastReportSeconds := c6Now - 30
    lastColdStartSeconds := c6Now - 100000
    records := [usedGpsRec, nullRec, nullRec]
    currentRecord := 1
    nextPubRecord := 0
    numRecordsQueued := 1 }

def c6Ctx1 : LoopCtx :=
  { establishOk := true, now := c6Now, inMotion := false, fixAchieved := true
    gpsCanSave := true, accelerometerConnected := false, outcome := okOutcome }

/-- The state wake 1 ends in: a second GPS record queued (the achieved
fix), GPS powered back off, the report timer 570 seconds from expiry. -/
def c6Out1 : RState :=
  { zeroRState 3 with
    sleepStartSeconds := c6Now
    minSleepPeriodSeconds := 30
    sleepForSeconds := 570
    lastGpsSeconds := c6Now
    lastTelemetrySeconds := c6Now - 3600
    lastStatsSeconds := c6Now - 3600
    lastReportSeconds := c6Now - 30
    lastColdStartSeconds := c6Now - 100000
    records := [usedGpsRec, usedGpsRec, nullRec]
    currentRecord := 2
    numRecordsQueued := 2
    powerSaveTime := c6Now }

/-- C6 counterexample, wake 2: exactly `sleepForSeconds` of wake 1 later,
again without motion; this time the fix attempt is still running, so
`setTimings` returns the 30-second floor: the sleep sequence decreases from
570 to 30 although no motion was ever detected. -/
def c6Ctx2 : LoopCtx :=
  { establishOk := true, now := c6Now + 570, inMotion := false, fixAchieved := false
    gpsCanSave := false, accelerometerConnected := false, outcome := failOutcome }

/-- C7 failing input: six consecutive connect failures have accumulated and
four records are queued, so the send path marks the modem to stay awake
through the next sleep. -/
def c7State : RState :=
  { zeroRState 5 with
    sleepStartSeconds := c6Now - 100
    minSleepPeriodSeconds := 30
    lastTelemetrySeconds := c6Now - 3600
    lastStatsSeconds := c6Now - 3600
    lastReportSeconds := c6Now - 30
    lastColdStartSeconds := c6Now - 100000
    records := [usedGpsRec, usedTelRec, usedGpsRec, usedTelRec, nullRec]
    currentRecord := 4
    nextPubRecord := 0
    numRecordsQueued := 4
    numConsecutiveConnectFailures := 6 }

def c7Ctx : LoopCtx :=
  { establishOk := true, now := c6Now, inMotion := false, fixAchieved := false
    gpsCanSave := false, accelerometerConnected := true, outcome := failOutcome }

/-- C1 witness fixture: capacity 4, slots 0 and 1 in use, write cursor at
2, publish cursor at 0 — every walked slot (0 then 1) is in use. -/
def c1wState : RState :=
  { zeroRState 4 with
    records := ((List.replicate 4 nullRec).set 0 usedGpsRec).set 1 usedTelRec
    currentRecord := 2
    nextPubRecord := 0
    numRecordsQueued := 2 }

/-- C6 witness fixture: the `setTimings` result of a quiet full-operation
wake over a one-slot empty queue. -/
def c6wRes : Int × RState :=
  ((setTimings c6Now 0 false true (zeroRState 1)).toOption).getD (0, zeroRState 0)

set_option maxHeartbeats 4000000

/-! ## Theorems -/

theorem getD_snoc_lt (l : List Nat) (b i : Nat) (h : i < l.length) :
    (l ++ [b]).getD i 0 = l.getD i 0 :=
  List.getD_append _ _ _ _ h

theorem getD_snoc_eq (l : List Nat) (b : Nat) : (l ++ [b]).getD l.length 0 = b := by
  rw [List.getD_append_right _ _ _ _ (le_refl _)]
  simp

theorem getD_lt_256 {l : List Nat} (hmem : ∀ y ∈ l, y < 256) {i : Nat} (h : i < l.length) :
    l.getD i 0 < 256 := by
  rw [List.getD_eq_getElem l 0 h]
  exact hmem _ (List.getElem_mem h)

theorem mem_snoc_lt {l : List Nat} {b : Nat} (hmem : ∀ y ∈ l, y < 256) (hb : b < 256) :
    ∀ y ∈ l ++ [b], y < 256 := by
  intro y hy
  rcases List.mem_append.mp hy with h | h
  · exact hmem y h
  · simp at h; omega

/-- Appending a checksummed byte extends the checksummed prefix of the
buffer by that byte. -/
theorem chk_snoc (l : List Nat) (b m m' : Nat) (h2 : 2 ≤ l.length)
    (hA : l.length ≤ m + 6) (hB : l.length ≤ m' + 5) :
    ((l ++ [b]).drop 2).take (m' + 4) = (l.drop 2).take (m + 4) ++ [b] := by
  rw [List.drop_append_of_le_length h2]
  rw [List.take_of_length_le (by simp [List.length_drop]; omega)]
  rw [List.take_of_length_le (by simp [List.length_drop]; omega)]

/-- Appending a non-checksummed byte leaves the checksummed prefix of the
buffer unchanged. -/
theorem chk_keep (l : List Nat) (b k : Nat) (h2 : 2 ≤ l.length) (hk : k ≤ l.length - 2) :
    ((l ++ [b]).drop 2).take k = (l.drop 2).take k := by
  rw [List.drop_append_of_le_length h2]
  rw [List.take_append_of_le_length (by simp [List.length_drop]; omega)]

theorem stepGps_inv (bufferLen c : Nat) (s : GpsState) (h : GpsInv s) :
    GpsInv (stepGps bufferLen s c) := by
  obtain ⟨hlen, hmem, h0, h1, h5eq, h6eq, hcks2, hck1, hx8, hc1, hc2, hfold⟩ := h
  have hb : c % 256 < 256 := Nat.mod_lt _ (by norm_num)
  simp only [stepGps, GPS_UBX_PROTOCOL_HEADER_SIZE]
  split_ifs with e1 e2 e3 e4 e5 e6 e7 e8 e9 e10 e11
  · -- x = 0, first sync byte
    obtain ⟨ex, eb⟩ := e1
    have hB : s.buf = [] := List.length_eq_zero.mp (by omega)
    simp only [GpsInv, saveByte]
    refine ⟨by simp [hlen], mem_snoc_lt hmem hb, ?_, by omega, by omega, by omega,
      hcks2, fun hc => absurd (hck1 hc) (by omega), by omega,
      fun hc => absurd (hck1 (by omega)) (by omega),
      fun hc => absurd (hc2 hc).1 (by omega), ?_⟩
    · intro
      rw [hB]; simpa using eb
    · rw [hB] at hfold ⊢
      simpa using hfold
  · -- x = 1, second sync byte
    obtain ⟨ex, eb⟩ := e2
    have hL : s.buf.length = 1 := by omega
    simp only [GpsInv, saveByte]
    refine ⟨by simp [hlen], mem_snoc_lt hmem hb, ?_, ?_, by omega, by omega,
      hcks2, fun hc => absurd (hck1 hc) (by omega), by omega,
      fun hc => absurd (hck1 (by omega)) (by omega),
      fun hc => absurd (hc2 hc).1 (by omega), ?_⟩
    · intro
      rw [getD_snoc_lt _ _ _ (by omega)]
      exact h0 (by omega)
    · intro
      have hd := getD_snoc_eq s.buf (c % 256)
      rw [hL] at hd
      rw [hd, eb]
    · have d1 : (s.buf ++ [c % 256]).drop 2 = [] :=
        List.drop_eq_nil_of_le (by simp; omega)
      have d2 : s.buf.drop 2 = [] := List.drop_eq_nil_of_le (by omega)
      rw [d1]
      rw [d2] at hfold
      simpa using hfold
  · -- x = 2, class byte
    simp only [GpsInv, saveByte, addChk]
    refine ⟨by simp [hlen], mem_snoc_lt hmem hb, ?_, ?_, by omega, by omega,
      hcks2, fun hc => absurd (hck1 hc) (by omega), by omega,
      fun hc => absurd (hck1 (by omega)) (by omega),
      fun hc => absurd (hc2 hc).1 (by omega), ?_⟩
    · intro
      rw [getD_snoc_lt _ _ _ (by omega)]
      exact h0 (by omega)
    · intro
      rw [getD_snoc_lt _ _ _ (by omega)]
      exact h1 (by omega)
    · rw [chk_snoc s.buf (c % 256) s.msgLen s.msgLen (by omega) (by omega) (by omega)]
      rw [List.foldl_append, ← hfold]
      simp [ubxStep]
  · -- x = 3, id byte
    simp only [GpsInv, saveByte, addChk]
    refine ⟨by simp [hlen], mem_snoc_lt hmem hb, ?_, ?_, by omega, by omega,
      hcks2, fun hc => absurd (hck1 hc) (by omega), by omega,
      fun hc => absurd (hck1 (by omega)) (by omega),
      fun hc => absurd (hc2 hc).1 (by omega), ?_⟩
    · intro
      rw [getD_snoc_lt _ _ _ (by omega)]
      exact h0 (by omega)
    · intro
      rw [getD_snoc_lt _ _ _ (by omega)]
      exact h1 (by omega)
    · rw [chk_snoc s.buf (c % 256) s.msgLen s.msgLen (by omega) (by omega) (by omega)]
      rw [List.foldl_append, ← hfold]
      simp [ubxStep]
  · -- x = 4, low length byte: msgLen := b
    simp only [GpsInv, saveByte, addChk]
    refine ⟨by simp [hlen], mem_snoc_lt hmem hb, ?_, ?_, ?_, by omega,
      hcks2, fun hc => absurd (hck1 hc) (by omega), by omega,
      fun hc => absurd (hck1 (by omega)) (by omega),
      fun hc => absurd (hc2 hc).1 (by omega), ?_⟩
    · intro
      rw [getD_snoc_lt _ _ _ (by omega)]
      exact h0 (by omega)
    · intro
      rw [getD_snoc_lt _ _ _ (by omega)]
      exact h1 (by omega)
    · intro
      have hd := getD_snoc_eq s.buf (c % 256)
      rw [hlen, e5] at hd
      rw [hd]
    · rw [chk_snoc s.buf (c % 256) s.msgLen (c % 256) (by omega) (by omega) (by omega)]
      rw [List.foldl_append, ← hfold]
      simp [ubxStep]
  · -- x = 5, high length byte: msgLen := (msgLen + b * 256) % 65536
    simp only [GpsInv, saveByte, addChk]
    refine ⟨by simp [hlen], mem_snoc_lt hmem hb, ?_, ?_, by omega, ?_,
      hcks2, fun hc => absurd (hck1 hc) (by omega), by omega,
      fun hc => absurd (hck1 (by omega)) (by omega),
      fun hc => absurd (hc2 hc).1 (by omega), ?_⟩
    · intro
      rw [getD_snoc_lt _ _ _ (by omega)]
      exact h0 (by omega)
    · intro
      rw [getD_snoc_lt _ _ _ (by omega)]
      exact h1 (by omega)
    · intro
      have e4lt : s.buf.getD 4 0 < 256 := getD_lt_256 hmem (by omega)
      have hm4 : s.msgLen = s.buf.getD 4 0 := h5eq e6
      have h45 : (s.buf ++ [c % 256]).getD 4 0 = s.buf.getD 4 0 :=
        getD_snoc_lt _ _ _ (by omega)
      have h55 : (s.buf ++ [c % 256]).getD 5 0 = c % 256 := by
        have hd := getD_snoc_eq s.buf (c % 256)
        rw [hlen, e6] at hd
        exact hd
      rw [h45, h55, ← hm4]
      exact Nat.mod_eq_of_lt (by omega)
    · rw [chk_snoc s.buf (c % 256) s.msgLen ((s.msgLen + c % 256 * 256) % 65536) (by omega)
        (by omega) (by omega)]
      rw [List.foldl_append, ← hfold]
      simp [ubxStep]
  · -- payload byte: 5 < x < bufferLen, x < msgLen + 6
    obtain ⟨ex5, exb, exm⟩ := e7
    simp only [GpsInv, saveByte, addChk]
    refine ⟨by simp [hlen], mem_snoc_lt hmem hb, ?_, ?_, by omega, ?_,
      hcks2, fun hc => absurd (hck1 hc) (by omega), by omega,
      fun hc => by omega,
      fun hc => absurd (hc2 hc).1 (by omega), ?_⟩
    · intro
      rw [getD_snoc_lt _ _ _ (by omega)]
      exact h0 (by omega)
    · intro
      rw [getD_snoc_lt _ _ _ (by omega)]
      exact h1 (by omega)
    · intro
      rw [getD_snoc_lt _ _ _ (by omega), getD_snoc_lt _ _ _ (by omega)]
      exact h6eq (by omega)
    · rw [chk_snoc s.buf (c % 256) s.msgLen s.msgLen (by omega) (by omega) (by omega)]
      rw [List.foldl_append, ← hfold]
      simp [ubxStep]
  · -- first checksum byte, match: x = msgLen + 6, b = ca % 256
    have hc0 : s.cks = 0 := by
      rcases Nat.eq_zero_or_pos s.cks with hz | hp
      · exact hz
      · exact absurd (hck1 hp) (by omega)
    simp only [GpsInv, saveByte]
    refine ⟨by simp [hlen], mem_snoc_lt hmem hb, ?_, ?_, by omega, ?_,
      by omega, fun _ => by omega, by omega, ?_, fun hc => by omega, ?_⟩
    · intro
      rw [getD_snoc_lt _ _ _ (by omega)]
      exact h0 (by omega)
    · intro
      rw [getD_snoc_lt _ _ _ (by omega)]
      exact h1 (by omega)
    · intro
      rw [getD_snoc_lt _ _ _ (by omega), getD_snoc_lt _ _ _ (by omega)]
      exact h6eq (by omega)
    · intro
      have hd := getD_snoc_eq s.buf (c % 256)
      rw [hlen, e8] at hd
      rw [hd, e9]
    · rw [chk_keep s.buf (c % 256) (s.msgLen + 4) (by omega) (by omega), ← hfold]
  · -- first checksum byte, mismatch
    have hc0 : s.cks = 0 := by
      rcases Nat.eq_zero_or_pos s.cks with hz | hp
      · exact hz
      · exact absurd (hck1 hp) (by omega)
    simp only [GpsInv, saveByte]
    refine ⟨by simp [hlen], mem_snoc_lt hmem hb, ?_, ?_, by omega, ?_,
      hcks2, fun hc => by omega, by omega, fun hc => by omega, fun hc => by omega, ?_⟩
    · intro
      rw [getD_snoc_lt _ _ _ (by omega)]
      exact h0 (by omega)
    · intro
      rw [getD_snoc_lt _ _ _ (by omega)]
      exact h1 (by omega)
    · intro
      rw [getD_snoc_lt _ _ _ (by omega), getD_snoc_lt _ _ _ (by omega)]
      exact h6eq (by omega)
    · rw [chk_keep s.buf (c % 256) (s.msgLen + 4) (by omega) (by omega), ← hfold]
  · -- second checksum byte, match: x = msgLen + 7, b = cb % 256
    have hcle : s.cks ≤ 1 := by
      by_contra hcon
      have h2' : s.cks = 2 := by omega
      exact absurd (hc2 h2').1 (by omega)
    simp only [GpsInv, saveByte]
    refine ⟨by simp [hlen], mem_snoc_lt hmem hb, ?_, ?_, by omega, ?_,
      by omega, fun _ => by omega, by omega, fun hc => by omega, ?_, ?_⟩
    · intro
      rw [getD_snoc_lt _ _ _ (by omega)]
      exact h0 (by omega)
    · intro
      rw [getD_snoc_lt _ _ _ (by omega)]
      exact h1 (by omega)
    · intro
      rw [getD_snoc_lt _ _ _ (by omega), getD_snoc_lt _ _ _ (by omega)]
      exact h6eq (by omega)
    · intro hck
      have hcks1 : s.cks = 1 := by omega
      refine ⟨by omega, ?_, ?_⟩
      · rw [getD_snoc_lt _ _ _ (by omega)]
        exact hc1 ⟨hcks1, e10⟩
      · have hd := getD_snoc_eq s.buf (c % 256)
        rw [hlen, e10] at hd
        rw [hd, e11]
    · rw [chk_keep s.buf (c % 256) (s.msgLen + 4) (by omega) (by omega), ← hfold]
  · -- second checksum byte, mismatch
    have hcle : s.cks ≤ 1 := by
      by_contra hcon
      have h2' : s.cks = 2 := by omega
      exact absurd (hc2 h2').1 (by omega)
    simp only [GpsInv, saveByte]
    refine ⟨by simp [hlen], mem_snoc_lt hmem hb, ?_, ?_, by omega, ?_,
      hcks2, fun hc => by omega, by omega, fun hc => by omega, fun hc => by omega, ?_⟩
    · intro
      rw [getD_snoc_lt _ _ _ (by omega)]
      exact h0 (by omega)
    · intro
      rw [getD_snoc_lt _ _ _ (by omega)]
      exact h1 (by omega)
    · intro
      rw [getD_snoc_lt _ _ _ (by omega), getD_snoc_lt _ _ _ (by omega)]
      exact h6eq (by omega)
    · rw [chk_keep s.buf (c % 256) (s.msgLen + 4) (by omega) (by omega), ← hfold]
  · -- no branch matched: state unchanged
    exact ⟨hlen, hmem, h0, h1, h5eq, h6eq, hcks2, hck1, hx8, hc1, hc2, hfold⟩

theorem runGps_cons (bl : Nat) (c : Nat) (rest : List Nat) (s : GpsState)
    (h1 : s.cks ≠ 2) (h2 : s.x < bl) :
    runGps bl (c :: rest) s = runGps bl rest (stepGps bl s c) := by
  rw [runGps, if_pos ⟨h1, h2⟩]

theorem stepGps_at0 (bl : Nat) (s : GpsState) (h : s.x = 0) :
    stepGps bl s 181 = saveByte s 181 := by
  simp [stepGps, h]

theorem stepGps_at1 (bl : Nat) (s : GpsState) (h : s.x = 1) :
    stepGps bl s 98 = saveByte s 98 := by
  simp [stepGps, h]

theorem stepGps_at2 (bl : Nat) (s : GpsState) (q : Nat) (h : s.x = 2) (hq : q < 256) :
    stepGps bl s q = saveByte (addChk s q) q := by
  simp [stepGps, h, Nat.mod_eq_of_lt hq]

theorem stepGps_at3 (bl : Nat) (s : GpsState) (q : Nat) (h : s.x = 3) (hq : q < 256) :
    stepGps bl s q = saveByte (addChk s q) q := by
  simp [stepGps, h, Nat.mod_eq_of_lt hq]

theorem stepGps_at4 (bl : Nat) (s : GpsState) (q : Nat) (h : s.x = 4) (hq : q < 256) :
    stepGps bl s q = saveByte (addChk { s with msgLen := q } q) q := by
  simp [stepGps, h, Nat.mod_eq_of_lt hq]

theorem stepGps_at5 (bl : Nat) (s : GpsState) (q : Nat) (h : s.x = 5) (hq : q < 256) :
    stepGps bl s q = saveByte (addChk { s with msgLen := (s.msgLen + q * 256) % 65536 } q) q := by
  simp [stepGps, h, Nat.mod_eq_of_lt hq]

theorem stepGps_pl (bl : Nat) (s : GpsState) (q : Nat) (h5 : 5 < s.x) (hb : s.x < bl)
    (hm : s.x < s.msgLen + 6) (hq : q < 256) :
    stepGps bl s q = saveByte (addChk s q) q := by
  simp only [stepGps, GPS_UBX_PROTOCOL_HEADER_SIZE, Nat.mod_eq_of_lt hq]
  rw [if_neg (fun hh => by omega), if_neg (fun hh => by omega), if_neg (by omega),
      if_neg (by omega), if_neg (by omega), if_neg (by omega), if_pos ⟨h5, hb, hm⟩]

theorem stepGps_ck1 (bl : Nat) (s : GpsState) (q : Nat) (h : s.x = s.msgLen + 6)
    (hq : q < 256) (hmatch : q = s.ca % 256) :
    stepGps bl s q = saveByte { s with cks := s.cks + 1 } q := by
  simp only [stepGps, GPS_UBX_PROTOCOL_HEADER_SIZE, Nat.mod_eq_of_lt hq]
  rw [if_neg (fun hh => by omega), if_neg (fun hh => by omega), if_neg (by omega),
      if_neg (by omega), if_neg (by omega), if_neg (by omega),
      if_neg (fun hh => by omega), if_pos h, if_pos hmatch]

theorem stepGps_ck2 (bl : Nat) (s : GpsState) (q : Nat) (h : s.x = s.msgLen + 7)
    (hq : q < 256) (hmatch : q = s.cb % 256) :
    stepGps bl s q = saveByte { s with cks := s.cks + 1 } q := by
  simp only [stepGps, GPS_UBX_PROTOCOL_HEADER_SIZE, Nat.mod_eq_of_lt hq]
  rw [if_neg (fun hh => by omega), if_neg (fun hh => by omega), if_neg (by omega),
      if_neg (by omega), if_neg (by omega), if_neg (by omega),
      if_neg (fun hh => by omega), if_neg (by omega), if_pos (by omega), if_pos hmatch]

theorem runGps_header (bufferLen cls msgId l0 l1 : Nat) (rest : List Nat)
    (hc : cls < 256) (hi : msgId < 256) (h0 : l0 < 256) (h1 : l1 < 256)
    (hbl : 8 ≤ bufferLen) (len : Nat) (hlen : l0 + l1 * 256 = len) (hlt : len < 65536) :
    runGps bufferLen (181 :: 98 :: cls :: msgId :: l0 :: l1 :: rest) initGps =
      runGps bufferLen rest
        ⟨6, len, (ubxChecksum [cls, msgId, l0, l1]).1, (ubxChecksum [cls, msgId, l0, l1]).2, 0,
          [181, 98, cls, msgId, l0, l1]⟩ := by
  rw [runGps_cons _ _ _ _ (by simp [initGps]) (by simp [initGps]; omega)]
  rw [stepGps_at0 _ _ (by simp [initGps])]
  rw [runGps_cons _ _ _ _ (by simp [saveByte, initGps]) (by simp [saveByte, initGps]; omega)]
  rw [stepGps_at1 _ _ (by simp [saveByte, initGps])]
  rw [runGps_cons _ _ _ _ (by simp [saveByte, initGps]) (by simp [saveByte, initGps]; omega)]
  rw [stepGps_at2 _ _ _ (by simp [saveByte, initGps]) hc]
  rw [runGps_cons _ _ _ _ (by simp [saveByte, addChk, initGps])
    (by simp [saveByte, addChk, initGps]; omega)]
  rw [stepGps_at3 _ _ _ (by simp [saveByte, addChk, initGps]) hi]
  rw [runGps_cons _ _ _ _ (by simp [saveByte, addChk, initGps])
    (by simp [saveByte, addChk, initGps]; omega)]
  rw [stepGps_at4 _ _ _ (by simp [saveByte, addChk, initGps]) h0]
  rw [runGps_cons _ _ _ _ (by simp [saveByte, addChk, initGps])
    (by simp [saveByte, addChk, initGps]; omega)]
  rw [stepGps_at5 _ _ _ (by simp [saveByte, addChk, initGps]) h1]
  congr 1
  simp [saveByte, addChk, initGps, ubxChecksum, ubxStep]
  omega

theorem runGps_payload (bufferLen len : Nat) (hbl : len + 8 ≤ bufferLen) :
    ∀ (p rest : List Nat) (k : Nat) (buf : List Nat) (ca cb : Nat),
      (∀ y ∈ p, y < 256) → k + p.length = len → buf.length = 6 + k →
      runGps bufferLen (p ++ rest) ⟨6 + k, len, ca, cb, 0, buf⟩ =
        runGps bufferLen rest ⟨6 + len, len, (List.foldl ubxStep (ca, cb) p).1,
          (List.foldl ubxStep (ca, cb) p).2, 0, buf ++ p⟩ := by
  intro p
  induction p with
  | nil =>
    intro rest k buf ca cb hp hk hbuf
    have hkl : k = len := by simpa using hk
    subst hkl
    simp
  | cons q ptl ih =>
    intro rest k buf ca cb hp hk hbuf
    have hq : q < 256 := hp q (by simp)
    have hk1 : k + ptl.length + 1 = len := by simpa [Nat.add_comm, Nat.add_assoc] using hk
    rw [List.cons_append]
    rw [runGps_cons _ _ _ _ (by simp) (by simp; omega)]
    rw [stepGps_pl _ _ _ (by simp; omega) (by simp; omega) (by simp; omega) hq]
    have hstate : saveByte (addChk ⟨6 + k, len, ca, cb, 0, buf⟩ q) q =
        (⟨6 + (k + 1), len, (ubxStep (ca, cb) q).1, (ubxStep (ca, cb) q).2, 0,
          buf ++ [q]⟩ : GpsState) := by
      simp [saveByte, addChk, ubxStep]
      omega
    rw [hstate]
    rw [ih rest (k + 1) (buf ++ [q]) (ubxStep (ca, cb) q).1 (ubxStep (ca, cb) q).2
      (fun y hy => hp y (by simp [hy])) (by omega) (by simp [hbuf]; omega)]
    simp [List.append_assoc]

theorem runGps_cksum (bufferLen len : Nat) (ca cb : Nat) (buf : List Nat)
    (hbl : len + 8 ≤ bufferLen) :
    runGps bufferLen [ca % 256, cb % 256] ⟨6 + len, len, ca, cb, 0, buf⟩ =
      ⟨8 + len, len, ca, cb, 2, buf ++ [ca % 256, cb % 256]⟩ := by
  rw [runGps_cons _ _ _ _ (by simp) (by simp; omega)]
  rw [stepGps_ck1 _ _ _ (show 6 + len = len + 6 by omega) (Nat.mod_lt _ (by norm_num)) rfl]
  rw [runGps_cons _ _ _ _ (by simp [saveByte]) (by simp [saveByte]; omega)]
  rw [stepGps_ck2 _ _ _ (by simp [saveByte]; omega) (Nat.mod_lt _ (by norm_num))
    (by simp [saveByte])]
  rw [show runGps bufferLen ([] : List Nat) = id from rfl]
  simp [saveByte]
  omega

/-- C2: for every class byte, id byte and payload shorter than 2^16, the
byte stream written by `sendUbx` is decoded by `readGpsMsg` (given a buffer
that can hold the whole frame): the parse succeeds, returns the full frame
length, and the caller's buffer holds the frame byte-for-byte — in
particular the same class, id, length and payload come back, and the
trailing checksum pair is the running sum over class, id, length and
payload bytes only, truncated to 8 bits. -/
theorem sendUbx_readGpsMsg_roundtrip (cls msgId : Nat) (payload : List Nat) (bufferLen : Nat)
    (hc : cls < 256) (hi : msgId < 256) (hp : ∀ y ∈ payload, y < 256)
    (hl : payload.length < 65536) (hb : payload.length + 8 ≤ bufferLen) :
    readGpsMsg bufferLen (sendUbxFrame cls msgId payload) =
      (payload.length + 8, sendUbxFrame cls msgId payload) ∧
    (sendUbxFrame cls msgId payload).getD 2 0 = cls ∧
    (sendUbxFrame cls msgId payload).getD 3 0 = msgId ∧
    (sendUbxFrame cls msgId payload).getD 4 0 +
      (sendUbxFrame cls msgId payload).getD 5 0 * 256 = payload.length ∧
    ((sendUbxFrame cls msgId payload).drop 6).take payload.length = payload ∧
    (sendUbxFrame cls msgId payload).drop (payload.length + 6) =
      [(ubxChecksum ([cls, msgId, payload.length % 256, payload.length / 256 % 256] ++
          payload)).1 % 256,
        (ubxChecksum ([cls, msgId, payload.length % 256, payload.length / 256 % 256] ++
          payload)).2 % 256] := by
  have hl0 : payload.length % 256 < 256 := Nat.mod_lt _ (by norm_num)
  have hl1 : payload.length / 256 % 256 < 256 := Nat.mod_lt _ (by norm_num)
  have hlrec : payload.length % 256 + payload.length / 256 % 256 * 256 = payload.length := by
    omega
  have hframe : sendUbxFrame cls msgId payload =
      181 :: 98 :: cls :: msgId :: payload.length % 256 :: payload.length / 256 % 256 ::
        (payload ++
          [(ubxChecksum ([cls, msgId, payload.length % 256, payload.length / 256 % 256] ++
              payload)).1 % 256,
            (ubxChecksum ([cls, msgId, payload.length % 256, payload.length / 256 % 256] ++
              payload)).2 % 256]) := by
    simp [sendUbxFrame]
  have hfold2 : List.foldl ubxStep
      ((ubxChecksum [cls, msgId, payload.length % 256, payload.length / 256 % 256]).1,
        (ubxChecksum [cls, msgId, payload.length % 256, payload.length / 256 % 256]).2)
      payload =
      ubxChecksum ([cls, msgId, payload.length % 256, payload.length / 256 % 256] ++ payload) := by
    simp [ubxChecksum, List.foldl_append]
  have hfull : runGps bufferLen (sendUbxFrame cls msgId payload) initGps =
      ⟨8 + payload.length, payload.length,
        (ubxChecksum ([cls, msgId, payload.length % 256, payload.length / 256 % 256] ++
          payload)).1,
        (ubxChecksum ([cls, msgId, payload.length % 256, payload.length / 256 % 256] ++
          payload)).2, 2, sendUbxFrame cls msgId payload⟩ := by
    rw [hframe]
    rw [runGps_header bufferLen cls msgId (payload.length % 256) (payload.length / 256 % 256)
      _ hc hi hl0 hl1 (by omega) payload.length hlrec hl]
    rw [runGps_payload bufferLen payload.length hb payload _ 0 _ _ _ hp (by simp) (by simp)]
    rw [hfold2]
    rw [runGps_cksum bufferLen payload.length _ _ _ hb]
    simp
  constructor
  · simp [readGpsMsg, hfull]
    omega
  refine ⟨by simp [sendUbxFrame], by simp [sendUbxFrame], by simp [sendUbxFrame, hlrec], ?_, ?_⟩
  · have hgrp : sendUbxFrame cls msgId payload =
        [181, 98, cls, msgId, payload.length % 256, payload.length / 256 % 256] ++
          (payload ++
            [(ubxChecksum ([cls, msgId, payload.length % 256, payload.length / 256 % 256] ++
                payload)).1 % 256,
              (ubxChecksum ([cls, msgId, payload.length % 256, payload.length / 256 % 256] ++
                payload)).2 % 256]) := by
      rw [hframe]
      simp
    rw [hgrp, List.drop_left' (by simp)]
    rw [List.take_append_of_le_length (le_refl _)]
    exact List.take_of_length_le (le_refl _)
  · have hgrp : sendUbxFrame cls msgId payload =
        ([181, 98, cls, msgId, payload.length % 256, payload.length / 256 % 256] ++ payload) ++
          [(ubxChecksum ([cls, msgId, payload.length % 256, payload.length / 256 % 256] ++
              payload)).1 % 256,
            (ubxChecksum ([cls, msgId, payload.length % 256, payload.length / 256 % 256] ++
              payload)).2 % 256] := by
      rw [hframe]
      simp
    rw [hgrp, List.drop_left' (by simp)]

/-- C2 witness: the roundtrip applied to the concrete frame of class 6,
id 36 and payload `[1, 2, 3]` in an 11-byte buffer. -/
theorem sendUbx_readGpsMsg_roundtrip_witness :
    readGpsMsg 11 (sendUbxFrame 6 36 [1, 2, 3]) =
      ([1, 2, 3].length + 8, sendUbxFrame 6 36 [1, 2, 3]) ∧
    (sendUbxFrame 6 36 [1, 2, 3]).getD 2 0 = 6 ∧
    (sendUbxFrame 6 36 [1, 2, 3]).getD 3 0 = 36 ∧
    (sendUbxFrame 6 36 [1, 2, 3]).getD 4 0 +
      (sendUbxFrame 6 36 [1, 2, 3]).getD 5 0 * 256 = [1, 2, 3].length ∧
    ((sendUbxFrame 6 36 [1, 2, 3]).drop 6).take [1, 2, 3].length = [1, 2, 3] ∧
    (sendUbxFrame 6 36 [1, 2, 3]).drop ([1, 2, 3].length + 6) =
      [(ubxChecksum ([6, 36, [1, 2, 3].length % 256, [1, 2, 3].length / 256 % 256] ++
          [1, 2, 3])).1 % 256,
        (ubxChecksum ([6, 36, [1, 2, 3].length % 256, [1, 2, 3].length / 256 % 256] ++
          [1, 2, 3])).2 % 256] :=
  sendUbx_readGpsMsg_roundtrip 6 36 [1, 2, 3] 11 (by decide) (by decide) (by decide)
    (by decide) (by decide)

theorem stepGps_x_le (bufferLen : Nat) (s : GpsState) (c : Nat) :
    (stepGps bufferLen s c).x ≤ s.x + 1 := by
  simp only [stepGps]
  split_ifs <;> simp [saveByte, addChk]

theorem stepGps_len_eq (bufferLen : Nat) (s : GpsState) (c : Nat)
    (h : s.buf.length = s.x) : (stepGps bufferLen s c).buf.length = (stepGps bufferLen s c).x := by
  simp only [stepGps]
  split_ifs <;> simp [saveByte, addChk, h]

theorem runGps_bounds (bufferLen : Nat) (input : List Nat) :
    ∀ s : GpsState, s.buf.length = s.x → s.x ≤ bufferLen →
      (runGps bufferLen input s).buf.length = (runGps bufferLen input s).x ∧
        (runGps bufferLen input s).x ≤ bufferLen := by
  induction input with
  | nil => intro s h1 h2; exact ⟨h1, h2⟩
  | cons c rest ih =>
    intro s h1 h2
    rw [runGps]
    split
    · rename_i hg
      exact ih _ (stepGps_len_eq bufferLen s c h1)
        (le_trans (stepGps_x_le bufferLen s c) hg.2)
    · exact ⟨h1, h2⟩

/-- C10.  For every input byte stream and buffer length, `readGpsMsg`
returns a byte count of at most `bufferLen` and writes at most `bufferLen`
bytes into the caller's buffer — the store at `*(pBuffer + x)` is guarded
by `x < bufferLen` whatever the frame's declared 16-bit length says. -/
theorem readGpsMsg_writes_in_bounds (bufferLen : Nat) (input : List Nat) :
    (readGpsMsg bufferLen input).1 ≤ bufferLen ∧
      (readGpsMsg bufferLen input).2.length ≤ bufferLen := by
  obtain ⟨h1, h2⟩ := runGps_bounds bufferLen input initGps rfl (Nat.zero_le _)
  simp only [readGpsMsg]
  refine ⟨?_, by simpa [h1] using h2⟩
  split
  · exact h2
  · exact Nat.zero_le _

theorem initGps_inv : GpsInv initGps := by
  refine ⟨rfl, by simp [initGps], ?_, ?_, ?_, ?_, by simp [initGps], ?_, by simp [initGps],
    ?_, ?_, rfl⟩ <;> simp [initGps]

theorem runGps_inv (bufferLen : Nat) (input : List Nat) :
    ∀ s : GpsState, GpsInv s → GpsInv (runGps bufferLen input s) := by
  induction input with
  | nil => intro s h; exact h
  | cons c rest ih =>
    intro s h
    rw [runGps]
    split
    · exact ih _ (stepGps_inv bufferLen c s h)
    · exact h

/-- C8 (amended): `readGpsMsg` returns 0 whenever the input ends without a
complete frame (timeout) or a checksum byte fails to match; a nonzero
return means the caller's buffer holds a complete validated frame: the
count equals the buffer length and the declared length plus 8, the sync
bytes are in place, and the two trailing bytes equal the running checksum
of the class/id/length/payload bytes, truncated to 8 bits.  (Bytes may
still have been written to the buffer on a failed call; only the zero
count marks them invalid.) -/
theorem readGpsMsg_zero_or_validated (bufferLen : Nat) (input : List Nat) :
    (readGpsMsg bufferLen input).1 = 0 ∨
      ((readGpsMsg bufferLen input).1 = (readGpsMsg bufferLen input).2.length ∧
        (readGpsMsg bufferLen input).1 =
          ((readGpsMsg bufferLen input).2.getD 4 0 +
            (readGpsMsg bufferLen input).2.getD 5 0 * 256) + 8 ∧
        (readGpsMsg bufferLen input).2.getD 0 0 = 181 ∧
        (readGpsMsg bufferLen input).2.getD 1 0 = 98 ∧
        (readGpsMsg bufferLen input).2.getD
            ((readGpsMsg bufferLen input).2.getD 4 0 +
              (readGpsMsg bufferLen input).2.getD 5 0 * 256 + 6) 0 =
          (ubxChecksum (((readGpsMsg bufferLen input).2.drop 2).take
            ((readGpsMsg bufferLen input).2.getD 4 0 +
              (readGpsMsg bufferLen input).2.getD 5 0 * 256 + 4))).1 % 256 ∧
        (readGpsMsg bufferLen input).2.getD
            ((readGpsMsg bufferLen input).2.getD 4 0 +
              (readGpsMsg bufferLen input).2.getD 5 0 * 256 + 7) 0 =
          (ubxChecksum (((readGpsMsg bufferLen input).2.drop 2).take
            ((readGpsMsg bufferLen input).2.getD 4 0 +
              (readGpsMsg bufferLen input).2.getD 5 0 * 256 + 4))).2 % 256) := by
  have hinv := runGps_inv bufferLen input initGps initGps_inv
  obtain ⟨hlen, hmem, h0, h1, h5eq, h6eq, hcks2, hck1, hx8, hc1, hc2, hfold⟩ := hinv
  by_cases hcx : (runGps bufferLen input initGps).cks = 2
  · have hr : readGpsMsg bufferLen input =
        ((runGps bufferLen input initGps).x, (runGps bufferLen input initGps).buf) := by
      simp only [readGpsMsg]
      rw [if_pos hcx]
    obtain ⟨hx, hca, hcb⟩ := hc2 hcx
    have hm : (runGps bufferLen input initGps).msgLen =
        (runGps bufferLen input initGps).buf.getD 4 0 +
          (runGps bufferLen input initGps).buf.getD 5 0 * 256 := h6eq (by omega)
    right
    rw [hr]
    dsimp only
    refine ⟨hlen.symm, by omega, h0 (by omega), h1 (by omega), ?_, ?_⟩
    · rw [← hm, hca]
      simp only [ubxChecksum]
      rw [← hfold]
    · rw [← hm, hcb]
      simp only [ubxChecksum]
      rw [← hfold]
  · left
    simp only [readGpsMsg]
    rw [if_neg hcx]

/-- C8 counterexample to the claim as stated: a read that times out after a
single sync byte returns 0 — yet the caller's buffer has been written
(`buffer[0] = 0xb5`), so the buffer is not populated "only when the call
succeeds". -/
theorem readGpsMsg_failed_read_writes_buffer :
    (readGpsMsg 32 [181]).1 = 0 ∧ (readGpsMsg 32 [181]).2 = [181] ∧
      (readGpsMsg 32 [181]).2 ≠ [] := by
  decide

/-- C9: with acknowledgment checking requested, `sendUbx` returns the
non-negative byte count `msgLen + 8` exactly when the first recognised
ACK/NACK frame for the sent class/id is an ACK; a NACK yields the distinct
failure value -1; and if no poll before the timeout yields a matching
ACK/NACK frame the result is the distinct failure value -2. -/
theorem sendUbx_ack_characterisation (cls msgId msgLen : Nat) (polls : List (List Nat)) :
    sendUbxCheckAck cls msgId msgLen polls =
      (match polls.find? (isAckNackFor cls msgId) with
       | none => -2
       | some p => if isAckPositive p then (msgLen : Int) + 8 else -1) ∧
    (0 ≤ sendUbxCheckAck cls msgId msgLen polls ↔
      ∃ p, polls.find? (isAckNackFor cls msgId) = some p ∧ isAckPositive p = true) := by
  have key : sendUbxCheckAck cls msgId msgLen polls =
      (match polls.find? (isAckNackFor cls msgId) with
       | none => -2
       | some p => if isAckPositive p then (msgLen : Int) + 8 else -1) := by
    induction polls with
    | nil => rfl
    | cons p rest ih =>
      rw [sendUbxCheckAck, List.find?_cons]
      by_cases hmatch : isAckNackFor cls msgId p = true
      · have hcond : (readGpsMsg 32 p).1 = 10 ∧ (readGpsMsg 32 p).2.getD 4 0 = 2 ∧
            (readGpsMsg 32 p).2.getD 5 0 = 0 ∧ (readGpsMsg 32 p).2.getD 6 0 = cls ∧
            (readGpsMsg 32 p).2.getD 7 0 = msgId ∧ (readGpsMsg 32 p).2.getD 2 0 = 5 := by
          simpa only [isAckNackFor, Bool.and_eq_true, beq_iff_eq, and_assoc] using hmatch
        rw [if_pos hcond, hmatch]
        simp only [cond_true]
        by_cases hpos : isAckPositive p = true
        · have h3 : (readGpsMsg 32 p).2.getD 3 0 = 1 := by
            simpa only [isAckPositive, beq_iff_eq] using hpos
          rw [if_neg (not_not_intro h3), if_pos hpos]
        · have h3 : ¬((readGpsMsg 32 p).2.getD 3 0 = 1) := by
            simpa only [isAckPositive, beq_iff_eq] using hpos
          rw [if_pos h3, if_neg hpos]
      · have hcond : ¬((readGpsMsg 32 p).1 = 10 ∧ (readGpsMsg 32 p).2.getD 4 0 = 2 ∧
            (readGpsMsg 32 p).2.getD 5 0 = 0 ∧ (readGpsMsg 32 p).2.getD 6 0 = cls ∧
            (readGpsMsg 32 p).2.getD 7 0 = msgId ∧ (readGpsMsg 32 p).2.getD 2 0 = 5) := by
          simpa only [isAckNackFor, Bool.and_eq_true, beq_iff_eq, and_assoc] using hmatch
        rw [Bool.not_eq_true] at hmatch
        rw [if_neg hcond, hmatch]
        simp only [cond_false]
        exact ih
  refine ⟨key, ?_⟩
  rw [key]
  constructor
  · intro hge
    match hf : polls.find? (isAckNackFor cls msgId) with
    | none =>
      rw [hf] at hge
      dsimp only at hge
      omega
    | some p =>
      rw [hf] at hge
      dsimp only at hge
      by_cases hpos : isAckPositive p = true
      · exact ⟨p, rfl, hpos⟩
      · rw [if_neg hpos] at hge; omega
  · rintro ⟨p, hf, hpos⟩
    rw [hf]
    dsimp only
    rw [if_pos hpos]
    omega

/-- C4: starting from the empty queue (capacity 23), the 24 consecutive
`getRecord` calls with no release hit the fatal path (the assert fires on
the 23rd call, when `numRecordsQueued` reaches capacity): the code
`FATAL_RECORDS_OVERRUN_2` is recorded at slot 0 of the persistent fatal
list, `numFatals` becomes 1, and the processor resets (the `Except.error`);
and before every allocation in the sequence the slot about to be written is
strictly inside the 23-slot records array, so no call writes out of
bounds. -/
theorem getRecord_capacity_plus_one_fatal :
    fatalCodeOf (allocCalls 24 (zeroRState 23)) = some .FATAL_RECORDS_OVERRUN_2 ∧
    ((fatalStateOf (allocCalls 24 (zeroRState 23))).map
      (fun st => st.fatalList.getD 0 .FATAL_TYPE_NULL)) = some .FATAL_RECORDS_OVERRUN_2 ∧
    ((fatalStateOf (allocCalls 24 (zeroRState 23))).map (fun st => st.numFatals)) = some 1 ∧
    (List.range 24).all c4InBounds = true := by
  decide

/-- C3 counterexample to the claim as stated: with capacity 4 and A,B,C,D
all in use, the write cursor has wrapped onto the publish cursor, so the
`while (x != r.currentRecord)` loop of `sendQueuedReports` exits at once:
nothing is attempted, A is not released, and the cursor stays at A (slot 0)
rather than moving to B (slot 1). -/
theorem sendQueuedReports_wrapped_noop :
    queueAfter c3Outcome c3FullState = some c3FullState ∧
    c3FullState.nextPubRecord = 0 ∧
    (c3FullState.records.getD 0 nullRec).isUsed = true ∧
    c3FullState.numPublishAttempts = 0 := by
  decide

/-- C3 (amended): the wrapped four-record state is a no-op flush; with
three records A,B,C in use at slots 0,1,2 (write cursor at 3) and only B's
publish failing, the pass releases A, leaves the cursor frozen at B, and —
unlike the claim's "C remains unattempted" — also attempts and releases C,
so that only B is pending afterwards. -/
theorem sendQueuedReports_capacity4_example :
    queueAfter c3Outcome c3FullState = some c3FullState ∧
    (queueAfter c3Outcome c3PartState).map (fun t => t.nextPubRecord) = some 1 ∧
    (queueAfter c3Outcome c3PartState).map
      (fun t => (t.records.getD 0 nullRec).isUsed) = some false ∧
    (queueAfter c3Outcome c3PartState).map
      (fun t => (t.records.getD 1 nullRec).isUsed) = some true ∧
    (queueAfter c3Outcome c3PartState).map
      (fun t => (t.records.getD 2 nullRec).isUsed) = some false ∧
    (queueAfter c3Outcome c3PartState).map (fun t => t.numRecordsQueued) = some 1 ∧
    (queueAfter c3Outcome c3PartState).map (fun t => t.numPublishAttempts) = some 3 ∧
    (queueAfter c3Outcome c3PartState).map (fun t => t.numPublishFailed) = some 1 := by
  decide

/-- C1 counterexample to the claim as stated, over the 23-slot queue of the
code: slot 0 in use (publish succeeds), slot 1 not in use, slot 2 in use
(its publish fails), write cursor at 3.  The pass's only failure is at
slot 2, but the cursor ends at slot 1 — the cursor advances only once per
in-use record handled before the first failure, so with a free hole in the
range it is NOT left at the first record whose send failed.  (Such holes
are reachable: a pass that fails on an early record while later records
succeed frees slots behind the frozen cursor.) -/
theorem sendQueuedReports_cursor_not_at_failed_slot :
    (queueAfter c1Outcome c1State).map (fun t => t.nextPubRecord) = some 1 ∧
    (queueAfter c1Outcome c1State).map
      (fun t => (t.records.getD 2 nullRec).isUsed) = some true ∧
    (queueAfter c1Outcome c1State).map (fun t => t.numPublishFailed) = some 1 ∧
    (queueAfter c1Outcome c1State).map
      (fun t => (t.records.getD 1 nullRec).isUsed) = some false := by
  decide

theorem incModRecords_lt (cap x : Nat) (h : 0 < cap) : incModRecords cap x < cap := by
  unfold incModRecords
  split <;> omega

theorem distMod_lt (cap x y : Nat) (h : 0 < cap) : distMod cap x y < cap :=
  Nat.mod_lt _ h

theorem distMod_eq (cap x y : Nat) (hx : x < cap) (hy : y < cap) :
    distMod cap x y = if x ≤ y then y - x else y + cap - x := by
  unfold distMod
  rcases Nat.lt_or_ge (y + cap - x) cap with h | h
  · rw [Nat.mod_eq_of_lt h]
    split <;> omega
  · rw [Nat.mod_eq_sub_mod h, Nat.mod_eq_of_lt (by omega)]
    split <;> omega

theorem distMod_zero_iff (cap x y : Nat) (hx : x < cap) (hy : y < cap) :
    distMod cap x y = 0 ↔ x = y := by
  rw [distMod_eq cap x y hx hy]
  split <;> omega

theorem distMod_incMod (cap x y : Nat) (hx : x < cap) (hy : y < cap) (hne : x ≠ y) :
    distMod cap (incModRecords cap x) y = distMod cap x y - 1 := by
  unfold incModRecords
  split
  · rw [distMod_eq cap 0 y (by omega) hy, distMod_eq cap x y hx hy]
    split_ifs <;> omega
  · rw [distMod_eq cap (x + 1) y (by omega) hy, distMod_eq cap x y hx hy]
    split_ifs <;> omega

theorem distMod_incMod_self (cap x : Nat) (hx : x < cap) :
    distMod cap (incModRecords cap x) x = cap - 1 := by
  unfold incModRecords
  split
  · rw [distMod_eq cap 0 x (by omega) hx]
    split <;> omega
  · rw [distMod_eq cap (x + 1) x (by omega) hx]
    split <;> omega

theorem slotsWalk_ne (cap : Nat) :
    ∀ fuel x y, ∀ k ∈ slotsWalk cap fuel x y, k ≠ y := by
  intro fuel
  induction fuel with
  | zero => intro x y k hk; simp [slotsWalk] at hk
  | succ n ih =>
    intro x y k hk
    rw [slotsWalk] at hk
    split at hk
    · simp at hk
    · rename_i hxy
      rcases List.mem_cons.mp hk with rfl | hk2
      · exact hxy
      · exact ih _ _ _ hk2

theorem slotsWalk_lt (cap : Nat) (hcap : 0 < cap) :
    ∀ fuel x y, x < cap → ∀ k ∈ slotsWalk cap fuel x y, k < cap := by
  intro fuel
  induction fuel with
  | zero => intro x y hx k hk; simp [slotsWalk] at hk
  | succ n ih =>
    intro x y hx k hk
    rw [slotsWalk] at hk
    split at hk
    · simp at hk
    · rcases List.mem_cons.mp hk with rfl | hk2
      · exact hx
      · exact ih _ _ (incModRecords_lt cap x hcap) _ hk2

theorem slotsWalk_dist (cap : Nat) (hcap : 0 < cap) :
    ∀ fuel x y, x < cap → y < cap →
      ∀ k ∈ slotsWalk cap fuel x y, distMod cap x k < distMod cap x y := by
  intro fuel
  induction fuel with
  | zero => intro x y hx hy k hk; simp [slotsWalk] at hk
  | succ n ih =>
    intro x y hx hy k hk
    rw [slotsWalk] at hk
    split at hk
    · simp at hk
    · rename_i hxy
      have hd0 : distMod cap x x = 0 := (distMod_zero_iff cap x x hx hx).mpr rfl
      have hdy : distMod cap x y ≠ 0 := fun hz => hxy ((distMod_zero_iff cap x y hx hy).mp hz)
      rcases List.mem_cons.mp hk with rfl | hk2
      · omega
      · have hk2cap : k < cap := slotsWalk_lt cap hcap n _ y (incModRecords_lt cap x hcap) k hk2
        have ih2 := ih (incModRecords cap x) y (incModRecords_lt cap x hcap) hy k hk2
        have hdy2 : distMod cap (incModRecords cap x) y = distMod cap x y - 1 :=
          distMod_incMod cap x y hx hy hxy
        by_cases hkx : k = x
        · subst hkx
          have hself := distMod_incMod_self cap k hx
          have hbound := distMod_lt cap k y hcap
          omega
        · have hdk : distMod cap (incModRecords cap x) k = distMod cap x k - 1 :=
            distMod_incMod cap x k hx hk2cap (fun he => hkx he.symm)
          have hkpos : distMod cap x k ≠ 0 :=
            fun hz => hkx ((distMod_zero_iff cap x k hx hk2cap).mp hz).symm
          omega

theorem processSlot_invariants (outcome : Nat → ConnectResult × Bool) (x : Nat) (acc : SqrAcc) :
    (processSlot outcome x acc).s.records.length = acc.s.records.length ∧
    (processSlot outcome x acc).s.currentRecord = acc.s.currentRecord ∧
    acc.failedCount ≤ (processSlot outcome x acc).failedCount := by
  unfold processSlot
  rcases h : outcome x with ⟨cr, pub⟩
  dsimp only
  cases cr <;> cases pub <;>
    simp only [applyConnect] <;>
    split_ifs <;> simp_all [freeRecord]

theorem processSlot_frozen (outcome : Nat → ConnectResult × Bool) (x : Nat) (acc : SqrAcc)
    (hf : 0 < acc.failedCount) :
    (processSlot outcome x acc).s.nextPubRecord = acc.s.nextPubRecord ∧
    0 < (processSlot outcome x acc).failedCount := by
  unfold processSlot
  rcases h : outcome x with ⟨cr, pub⟩
  dsimp only
  cases cr <;> cases pub <;>
    simp only [applyConnect] <;>
    split_ifs <;> simp_all [freeRecord]

theorem processSlot_fail (outcome : Nat → ConnectResult × Bool) (x : Nat) (acc : SqrAcc)
    (h0 : acc.failedCount = 0) (hf : isFailOutcome (outcome x) = true) :
    (processSlot outcome x acc).s.nextPubRecord = acc.s.nextPubRecord ∧
    (processSlot outcome x acc).failedCount = 1 := by
  unfold processSlot
  rcases h : outcome x with ⟨cr, pub⟩
  rw [h] at hf
  dsimp only
  cases cr <;> cases pub <;> simp_all [isFailOutcome, applyConnect, freeRecord]

theorem processSlot_ok (outcome : Nat → ConnectResult × Bool) (x : Nat) (acc : SqrAcc)
    (h0 : acc.failedCount = 0) (hok : isFailOutcome (outcome x) = false) :
    (processSlot outcome x acc).failedCount = 0 ∧
    (processSlot outcome x acc).s.nextPubRecord =
      incModRecords acc.s.records.length acc.s.nextPubRecord ∧
    (∀ k, k ≠ x → (processSlot outcome x acc).s.records.getD k nullRec =
      acc.s.records.getD k nullRec) := by
  unfold processSlot
  rcases h : outcome x with ⟨cr, pub⟩
  rw [h] at hok
  dsimp only
  cases cr <;> cases pub <;> simp_all [isFailOutcome, applyConnect, freeRecord] <;>
    intro k hk <;> rw [List.getElem?_set_ne (fun he => hk he.symm)]

theorem sqrLoop_frozen (outcome : Nat → ConnectResult × Bool) :
    ∀ fuel x (acc : SqrAcc), 0 < acc.failedCount → x < acc.s.records.length →
      ∃ res, sqrLoop outcome fuel x acc = .ok res ∧
        res.s.nextPubRecord = acc.s.nextPubRecord := by
  intro fuel
  induction fuel with
  | zero =>
    intro x acc hf hx
    rw [sqrLoop]
    split
    · exact ⟨acc, rfl, rfl⟩
    · exact ⟨acc, rfl, rfl⟩
  | succ n ih =>
    intro x acc hf hx
    rw [sqrLoop]
    split
    · exact ⟨acc, rfl, rfl⟩
    · dsimp only
      rw [if_pos hx]
      set acc2 := if (acc.s.records.getD x nullRec).isUsed = true then
        processSlot outcome x acc else acc with hacc2
      have hfacts : acc2.s.nextPubRecord = acc.s.nextPubRecord ∧ 0 < acc2.failedCount ∧
          acc2.s.records.length = acc.s.records.length := by
        rw [hacc2]
        split
        · obtain ⟨hn, hfc⟩ := processSlot_frozen outcome x acc hf
          obtain ⟨hl, _, _⟩ := processSlot_invariants outcome x acc
          exact ⟨hn, hfc, hl⟩
        · exact ⟨rfl, hf, rfl⟩
      obtain ⟨hn2, hf2, hl2⟩ := hfacts
      obtain ⟨res, hres, hnp⟩ := ih (incModRecords acc.s.records.length x) acc2 hf2
        (by rw [hl2]; exact incModRecords_lt _ _ (by omega))
      exact ⟨res, hres, by rw [hnp, hn2]⟩

theorem sqrLoop_walk (outcome : Nat → ConnectResult × Bool) :
    ∀ fuel x (acc : SqrAcc), acc.failedCount = 0 → acc.s.nextPubRecord = x →
      x < acc.s.records.length → acc.s.currentRecord < acc.s.records.length →
      distMod acc.s.records.length x acc.s.currentRecord < fuel →
      (∀ k ∈ slotsWalk acc.s.records.length fuel x acc.s.currentRecord,
        (acc.s.records.getD k nullRec).isUsed = true) →
      ∃ res, sqrLoop outcome fuel x acc = .ok res ∧
        res.s.nextPubRecord =
          ((slotsWalk acc.s.records.length fuel x acc.s.currentRecord).find?
            (fun k => isFailOutcome (outcome k))).getD acc.s.currentRecord ∧
        ((slotsWalk acc.s.records.length fuel x acc.s.currentRecord).find?
            (fun k => isFailOutcome (outcome k)) = none → res.failedCount = 0) := by
  intro fuel
  induction fuel with
  | zero =>
    intro x acc h0 hnx hx hcur hdist hused
    omega
  | succ n ih =>
    intro x acc h0 hnx hx hcur hdist hused
    have hcap : 0 < acc.s.records.length := by omega
    by_cases hxc : x = acc.s.currentRecord
    · -- loop exits at once: empty walk
      refine ⟨acc, ?_, ?_, fun _ => h0⟩
      · rw [sqrLoop, if_pos hxc]
      · rw [slotsWalk, if_pos hxc]
        simp [hnx, hxc]
    · have hwalk : slotsWalk acc.s.records.length (n + 1) x acc.s.currentRecord =
          x :: slotsWalk acc.s.records.length n (incModRecords acc.s.records.length x)
            acc.s.currentRecord := by
        rw [slotsWalk, if_neg hxc]
      have husedx : (acc.s.records.getD x nullRec).isUsed = true := by
        apply hused
        rw [hwalk]
        simp
      rw [sqrLoop, if_neg hxc]
      dsimp only
      rw [if_pos hx, if_pos husedx]
      by_cases hfail : isFailOutcome (outcome x) = true
      · -- first failure at x: the cursor freezes there
        obtain ⟨hnp, hfc⟩ := processSlot_fail outcome x acc h0 hfail
        obtain ⟨hlen, hcurr, _⟩ := processSlot_invariants outcome x acc
        obtain ⟨res, hres, hrn⟩ := sqrLoop_frozen outcome n
          (incModRecords acc.s.records.length x) (processSlot outcome x acc) (by omega)
          (by rw [hlen]; exact incModRecords_lt _ _ hcap)
        refine ⟨res, hres, ?_, ?_⟩
        · rw [hwalk, List.find?_cons, hfail]
          simp only [cond_true, Option.getD_some]
          rw [hrn, hnp, hnx]
        · rw [hwalk, List.find?_cons, hfail]
          simp
      · -- x succeeds (or was skipped -- here it is in use, so it was sent)
        have hfail' : isFailOutcome (outcome x) = false := by
          rw [Bool.not_eq_true] at hfail
          exact hfail
        obtain ⟨hfc, hnp, hrec⟩ := processSlot_ok outcome x acc h0 hfail'
        obtain ⟨hlen, hcurr, _⟩ := processSlot_invariants outcome x acc
        have hnotmem : x ∉ slotsWalk acc.s.records.length n
            (incModRecords acc.s.records.length x) acc.s.currentRecord := by
          intro hmem
          have hd := slotsWalk_dist acc.s.records.length hcap n
            (incModRecords acc.s.records.length x) acc.s.currentRecord
            (incModRecords_lt _ _ hcap) hcur x hmem
          have hself := distMod_incMod_self acc.s.records.length x hx
          have hdy2 := distMod_incMod acc.s.records.length x acc.s.currentRecord hx hcur hxc
          have hbound := distMod_lt acc.s.records.length x acc.s.currentRecord hcap
          omega
        have ihargs := ih (incModRecords acc.s.records.length x) (processSlot outcome x acc)
          hfc (by rw [hnp, hnx]) (by rw [hlen]; exact incModRecords_lt _ _ hcap)
          (by rw [hlen, hcurr]; exact hcur)
          (by
            rw [hlen, hcurr]
            have hd := distMod_incMod acc.s.records.length x acc.s.currentRecord hx hcur hxc
            have hdp : distMod acc.s.records.length x acc.s.currentRecord ≠ 0 :=
              fun hz => hxc ((distMod_zero_iff _ _ _ hx hcur).mp hz)
            omega)
          (by
            rw [hlen, hcurr]
            intro k hk
            rw [hrec k (fun he => (by subst he; exact hnotmem hk : False))]
            apply hused
            rw [hwalk]
            exact List.mem_cons_of_mem _ hk)
        obtain ⟨res, hres, hrn, hrf⟩ := ihargs
        rw [hlen, hcurr] at hrn hrf
        refine ⟨res, hres, ?_, ?_⟩
        · rw [hwalk, List.find?_cons, hfail']
          simp only [cond_false]
          exact hrn
        · rw [hwalk, List.find?_cons, hfail']
          simp only [cond_false]
          exact hrf

theorem sqrLoop_structure (outcome : Nat → ConnectResult × Bool) :
    ∀ fuel x (acc : SqrAcc) res, sqrLoop outcome fuel x acc = .ok res →
      res.s.records.length = acc.s.records.length ∧
      res.s.currentRecord = acc.s.currentRecord := by
  intro fuel
  induction fuel with
  | zero =>
    intro x acc res h
    rw [sqrLoop] at h
    split at h
    · cases h; exact ⟨rfl, rfl⟩
    · cases h; exact ⟨rfl, rfl⟩
  | succ n ih =>
    intro x acc res h
    rw [sqrLoop] at h
    split at h
    · cases h; exact ⟨rfl, rfl⟩
    · dsimp only at h
      split at h
      · by_cases hu : (acc.s.records.getD x nullRec).isUsed = true
        · rw [if_pos hu] at h
          have h2 := ih _ _ _ h
          have h3 := processSlot_invariants outcome x acc
          exact ⟨h2.1.trans h3.1, h2.2.trans h3.2.1⟩
        · rw [if_neg hu] at h
          exact ih _ _ _ h
      · simp at h

/-- C1.  Amended form: when the publish and write cursors are in range and
every slot the pass walks over (from `nextPubRecord` forward to
`currentRecord`) is in use, `sendQueuedReports` leaves `nextPubRecord` at
the first slot of the walk whose connect or publish failed, or at
`currentRecord` when none failed — so the next flush resumes exactly at the
first failed record.  The original claim's final clause is amended away: in
this fully-in-use situation the frozen cursor is a walked slot and a walked
slot never equals `currentRecord`, so the line-1886 nudge can never fire,
and the claim's unconditional "cursor frozen at the first failed record" is
only true when no freed hole precedes the failed slot (see the
counterexample). -/
theorem sendQueuedReports_freeze (outcome : Nat → ConnectResult × Bool) (s : RState)
    (hnp : s.nextPubRecord < s.records.length)
    (hcur : s.currentRecord < s.records.length)
    (hused : ∀ k ∈ slotsWalk s.records.length (s.records.length + 1)
        s.nextPubRecord s.currentRecord,
      (s.records.getD k nullRec).isUsed = true) :
    ∃ t gps, sendQueuedReports outcome s = .ok (t, gps) ∧
      t.nextPubRecord =
        ((slotsWalk s.records.length (s.records.length + 1)
            s.nextPubRecord s.currentRecord).find?
          (fun k => isFailOutcome (outcome k))).getD s.currentRecord ∧
      t.currentRecord = s.currentRecord := by
  have hcap : 0 < s.records.length := by omega
  have hdist : distMod s.records.length s.nextPubRecord s.currentRecord <
      s.records.length + 1 := by
    have := distMod_lt s.records.length s.nextPubRecord s.currentRecord hcap
    omega
  obtain ⟨res, hres, hrn, hrf⟩ :=
    sqrLoop_walk outcome (s.records.length + 1) s.nextPubRecord ⟨s, 0, 0, false⟩
      rfl rfl hnp hcur hdist hused
  have hinv := sqrLoop_structure outcome (s.records.length + 1) s.nextPubRecord
      ⟨s, 0, 0, false⟩ res hres
  dsimp only at hrn hrf hinv
  have hcond : ¬(res.failedCount > 0 ∧ res.s.nextPubRecord = res.s.currentRecord) := by
    rcases hfind : (slotsWalk s.records.length (s.records.length + 1)
        s.nextPubRecord s.currentRecord).find?
          (fun k => isFailOutcome (outcome k)) with _ | f
    · intro hc
      have := hrf hfind
      omega
    · intro hc
      rw [hfind] at hrn
      simp only [Option.getD_some] at hrn
      have hmem := List.mem_of_find?_eq_some hfind
      have hne := slotsWalk_ne s.records.length (s.records.length + 1)
        s.nextPubRecord s.currentRecord f hmem
      rw [hinv.2] at hc
      exact hne (hrn ▸ hc.2)
  refine ⟨res.s, res.gpsSent, ?_, hrn, hinv.2⟩
  simp only [sendQueuedReports, hres]
  rw [if_neg hcond]

theorem sendQueuedReports_freeze_witness :
    ∃ t gps, sendQueuedReports okOutcome c1wState = .ok (t, gps) ∧
      t.nextPubRecord =
        ((slotsWalk c1wState.records.length (c1wState.records.length + 1)
            c1wState.nextPubRecord c1wState.currentRecord).find?
          (fun k => isFailOutcome (okOutcome k))).getD c1wState.currentRecord ∧
      t.currentRecord = c1wState.currentRecord :=
  sendQueuedReports_freeze okOutcome c1wState (by decide) (by decide) (by decide)

/-- C5.  Amended form: the sleep handed to the power-control call is never
negative — the final catch of `loop()` (lines 2214-2217) resets a negative
`sleepForSeconds` to zero — and the dedicated limiter `sleepLimitsCheck`
does clamp its argument into `[0, MAX_WAKEUP_PERIOD_SECONDS]`; but the
limiter is only applied on the woken-early path, so the upper bound does
not hold for the final sleep of every branch (see the counterexample, where
a wake before the start time sleeps 9707200 seconds). -/
theorem loopStep_sleep_nonneg (c : LoopCtx) (s t : RState)
    (h : loopStep c s = .ok t) :
    0 ≤ t.sleepForSeconds ∧
    ∀ y : Int, 0 ≤ sleepLimitsCheck y ∧ sleepLimitsCheck y ≤ MAX_WAKEUP_PERIOD_SECONDS := by
  constructor
  · rw [loopStep] at h
    rcases hc : loopCore c s with e | s1
    · rw [hc] at h; simp at h
    · rw [hc] at h
      dsimp only at h
      by_cases hneg : s1.sleepForSeconds < 0
      · rw [if_pos hneg] at h
        cases h
        exact le_refl 0
      · rw [if_neg hneg] at h
        cases h
        show 0 ≤ s1.sleepForSeconds
        omega
  · intro y
    have e1 : MAX_WAKEUP_PERIOD_SECONDS = 7200 := rfl
    simp only [sleepLimitsCheck, e1]
    split_ifs <;> omega

theorem loopStep_sleep_nonneg_witness :
    0 ≤ c5wOut.sleepForSeconds ∧
    ∀ y : Int, 0 ≤ sleepLimitsCheck y ∧ sleepLimitsCheck y ≤ MAX_WAKEUP_PERIOD_SECONDS :=
  loopStep_sleep_nonneg c5wCtx c5wState c5wOut (by rfl)

/-- C5 counterexample: with the clock established at 1460000000 (before the
one-shot start time), the pre-start branch of `loop()` computes a sleep of
9707200 seconds, which reaches the sleep call unclamped and exceeds
`MAX_WAKEUP_PERIOD_SECONDS = 7200`. -/
theorem loopStep_sleep_exceeds_max :
    ((loopStep c5Ctx c5State).toOption.map fun t => t.sleepForSeconds) = some 9707200 ∧
    MAX_WAKEUP_PERIOD_SECONDS < 9707200 := by
  exact ⟨by rfl, by decide⟩

theorem getSleepTime_nonneg (now lastTime period : Int) (hp : 0 ≤ period) :
    0 ≤ getSleepTime now lastTime period := by
  simp only [getSleepTime]
  split_ifs <;> omega

theorem setTimingsTimers_bounds (now sf0 minS0 : Int) (s : RState)
    (hsf0 : 0 ≤ sf0) (hstats : 0 ≤ s.statsPeriodSeconds) :
    0 ≤ (setTimingsTimers now sf0 minS0 s).1 ∧
    (setTimingsTimers now sf0 minS0 s).1 ≤ sf0 ∧
    (setTimingsTimers now sf0 minS0 s).2.minSleepPeriodSeconds ≤
      (setTimingsTimers now sf0 minS0 s).1 := by
  have ht := getSleepTime_nonneg now s.lastTelemetrySeconds TELEMETRY_PERIOD_SECONDS (by decide)
  have hs := getSleepTime_nonneg now s.lastStatsSeconds s.statsPeriodSeconds hstats
  have hr := getSleepTime_nonneg now s.lastReportSeconds REPORT_PERIOD_SECONDS (by decide)
  simp only [setTimingsTimers]
  refine ⟨?_, ?_, ?_⟩ <;> (dsimp only; split_ifs <;> omega)

theorem getRecord_frame (ty : RecordType) (s : RState) (i : Nat) (s1 : RState)
    (h : getRecord ty s = .ok (i, s1)) :
    s1.statsPeriodSeconds = s.statsPeriodSeconds := by
  simp only [getRecord] at h
  split_ifs at h
  all_goals cases h
  all_goals rfl

/-- C6.  Amended form: the scheduler has no geometric back-off at all.  In
every full-operation wake, `setTimings` computes the next sleep as the
minimum of the fixed telemetry, stats and queued-report timers (never the
double of the previous interval): whatever the motion history, the result
lies in `[0, TELEMETRY_PERIOD_SECONDS]` and the recorded minimum sleep
period never exceeds it.  Successive sleeps are not non-decreasing (see the
counterexample: 570 seconds then 30 seconds across two motionless wakes);
the only floor-reset related to motion is that each wake begins from the
`MIN_MOTION_PERIOD_SECONDS` defaults. -/
theorem setTimings_full_operation_bounds (now ssm : Int) (av fx : Bool) (s : RState)
    (hnow : now ≥ START_TIME_FULL_WORKING_DAY_OPERATION_UNIX_UTC)
    (hstats : 0 ≤ s.statsPeriodSeconds) (sf : Int) (t : RState)
    (h : setTimings now ssm av fx s = .ok (sf, t)) :
    0 ≤ sf ∧ sf ≤ TELEMETRY_PERIOD_SECONDS ∧ t.minSleepPeriodSeconds ≤ sf := by
  have e1 : MIN_MOTION_PERIOD_SECONDS = 30 := rfl
  have e2 : TELEMETRY_PERIOD_SECONDS = 7200 := rfl
  rw [setTimings, if_pos hnow] at h
  by_cases hg : s.gpsOn
  · rw [if_pos hg] at h
    injection h with h2
    have hsf := congrArg Prod.fst h2
    have ht := congrArg Prod.snd h2
    dsimp only at hsf ht
    have hb := setTimingsTimers_bounds now MIN_MOTION_PERIOD_SECONDS
      MIN_MOTION_PERIOD_SECONDS s (by decide) hstats
    rw [hsf, ht] at hb
    omega
  · rw [if_neg hg] at h
    by_cases hq : (s.gpsFixRequested && !fx) = true
    · rw [if_pos hq] at h
      rcases hrec : getRecord .RECORD_TYPE_GPS s with e | p
      · rw [hrec] at h; simp at h
      · rw [hrec] at h
        dsimp only at h
        injection h with h2
        have hsf := congrArg Prod.fst h2
        have ht := congrArg Prod.snd h2
        dsimp only at hsf ht
        have hst2 : 0 ≤ ({ p.2 with gpsFixRequested := false } : RState).statsPeriodSeconds := by
          have := getRecord_frame .RECORD_TYPE_GPS s p.1 p.2 (by rw [hrec])
          show 0 ≤ p.2.statsPeriodSeconds
          omega
        have hb := setTimingsTimers_bounds now TELEMETRY_PERIOD_SECONDS
          MAX_MOTION_PERIOD_SECONDS { p.2 with gpsFixRequested := false } (by decide) hst2
        rw [hsf, ht] at hb
        omega
    · rw [if_neg hq] at h
      injection h with h2
      have hsf := congrArg Prod.fst h2
      have ht := congrArg Prod.snd h2
      dsimp only at hsf ht
      have hst2 : 0 ≤ ({ s with gpsFixRequested := false } : RState).statsPeriodSeconds := hstats
      have hb := setTimingsTimers_bounds now TELEMETRY_PERIOD_SECONDS
        MIN_MOTION_PERIOD_SECONDS { s with gpsFixRequested := false } (by decide) hst2
      rw [hsf, ht] at hb
      omega

theorem setTimings_full_operation_bounds_witness :
    0 ≤ c6wRes.1 ∧ c6wRes.1 ≤ TELEMETRY_PERIOD_SECONDS ∧
    c6wRes.2.minSleepPeriodSeconds ≤ c6wRes.1 :=
  setTimings_full_operation_bounds c6Now 0 false true (zeroRState 1) (by decide) (by decide)
    c6wRes.1 c6wRes.2 (by rfl)

theorem loopCore_normal (c : LoopCtx) (s : RState)
    (h0 : ¬ c.now < START_TIME_FULL_WORKING_DAY_OPERATION_UNIX_UTC)
    (h1 : c.establishOk = true)
    (h2 : ¬ s.sleepStartSeconds < MIN_TIME_UNIX_UTC)
    (h3 : c.now ≥ START_TIME_UNIX_UTC)
    (h4 : START_OF_WORKING_DAY_SECONDS ≤ secondsSinceMidnight c.now ∧
      secondsSinceMidnight c.now ≤
        START_OF_WORKING_DAY_SECONDS + LENGTH_OF_WORKING_DAY_SECONDS)
    (h5 : c.inMotion = false)
    (h6 : c.now ≥ s.sleepStartSeconds + s.minSleepPeriodSeconds) :
    loopCore c s =
      match normalWake c (secondsSinceMidnight c.now) s with
      | .error e => .error e
      | .ok s1 => .ok { s1 with powerSaveTime := c.now } := by
  rw [loopCore]
  dsimp only
  rw [if_neg h0, if_pos h1, if_neg h2, if_pos h3, if_pos h4,
    if_neg (show ¬ (c.inMotion = true) by simp [h5]), if_pos h6]

theorem wake1_c6 : loopStep c6Ctx1 c6State1 = .ok c6Out1 := by
  have g1 : nwTelemetry c6Ctx1 (nwInit c6State1) = .ok (false, c6State1) := by decide
  have g2 : nwStats c6Ctx1 c6State1 = .ok c6State1 := by decide
  have g3 : nwGps c6Ctx1 c6State1 = .ok (true,
      { c6State1 with
        gpsOn := true, lastGpsSeconds := c6Now,
        records := [usedGpsRec, usedGpsRec, nullRec],
        numRecordsQueued := 2, currentRecord := 2 }) := by decide
  have g4 : nwPower c6Ctx1
      { c6State1 with
        gpsOn := true, lastGpsSeconds := c6Now,
        records := [usedGpsRec, usedGpsRec, nullRec],
        numRecordsQueued := 2, currentRecord := 2 } =
      { c6State1 with
        lastGpsSeconds := c6Now,
        records := [usedGpsRec, usedGpsRec, nullRec],
        numRecordsQueued := 2, currentRecord := 2 } := by decide
  have g5 : nwReports c6Ctx1 false true
      { c6State1 with
        lastGpsSeconds := c6Now,
        records := [usedGpsRec, usedGpsRec, nullRec],
        numRecordsQueued := 2, currentRecord := 2 } =
      .ok (false,
      { c6State1 with
        lastGpsSeconds := c6Now,
        records := [usedGpsRec, usedGpsRec, nullRec],
        numRecordsQueued := 2, currentRecord := 2 }) := by decide
  have g6 : setTimings c6Ctx1.now (secondsSinceMidnight c6Ctx1.now) false true
      (nwSlow c6Ctx1 false
        { c6State1 with
          lastGpsSeconds := c6Now,
          records := [usedGpsRec, usedGpsRec, nullRec],
          numRecordsQueued := 2, currentRecord := 2 }) =
      .ok (570,
      { c6State1 with
        lastGpsSeconds := c6Now,
        records := [usedGpsRec, usedGpsRec, nullRec],
        numRecordsQueued := 2, currentRecord := 2 }) := by decide
  have gNW : normalWake c6Ctx1 (secondsSinceMidnight c6Ctx1.now) c6State1 =
      .ok { c6State1 with
            lastGpsSeconds := c6Now,
            records := [usedGpsRec, usedGpsRec, nullRec],
            numRecordsQueued := 2, currentRecord := 2,
            sleepForSeconds := 570 } := by
    rw [normalWake, g1]
    dsimp only
    rw [g2]
    dsimp only
    rw [g3]
    dsimp only
    rw [g4, g5]
    dsimp only
    rw [g6]
  have gcore := loopCore_normal c6Ctx1 c6State1 (by decide) (by decide) (by decide)
    (by decide) (by decide) (by decide) (by decide)
  rw [loopStep, gcore, gNW]
  dsimp only
  rw [if_neg (by decide)]
  decide

theorem wake2_c6 :
    ((loopStep c6Ctx2 c6Out1).toOption.map fun t => t.sleepForSeconds) = some 30 := by
  have g1 : nwTelemetry c6Ctx2 (nwInit c6Out1) =
      .ok (false, { c6Out1 with sleepForSeconds := 30 }) := by decide
  have g2 : nwStats c6Ctx2 { c6Out1 with sleepForSeconds := 30 } =
      .ok { c6Out1 with sleepForSeconds := 30 } := by decide
  have g3 : nwGps c6Ctx2 { c6Out1 with sleepForSeconds := 30 } =
      .ok (false, { c6Out1 with sleepForSeconds := 30, gpsOn := true }) := by decide
  have g4 : nwPower c6Ctx2 { c6Out1 with sleepForSeconds := 30, gpsOn := true } =
      { c6Out1 with sleepForSeconds := 30, gpsOn := true } := by decide
  have g5 : nwReports c6Ctx2 false false
      { c6Out1 with sleepForSeconds := 30, gpsOn := true } =
      .ok (false,
      { c6Out1 with
        sleepForSeconds := 30, gpsOn := true,
        numConnectAttempts := 2, numConnectFailed := 2,
        numConsecutiveConnectFailures := 2,
        lastReportSeconds := c6Now + 570 }) := by decide
  have g6 : setTimings c6Ctx2.now (secondsSinceMidnight c6Ctx2.now) false false
      (nwSlow c6Ctx2 false
        { c6Out1 with
          sleepForSeconds := 30, gpsOn := true,
          numConnectAttempts := 2, numConnectFailed := 2,
          numConsecutiveConnectFailures := 2,
          lastReportSeconds := c6Now + 570 }) =
      .ok (30,
      { c6Out1 with
        sleepForSeconds := 30, gpsOn := true,
        numConnectAttempts := 2, numConnectFailed := 2,
        numConsecutiveConnectFailures := 2,
        lastReportSeconds := c6Now + 570 }) := by decide
  have gNW : normalWake c6Ctx2 (secondsSinceMidnight c6Ctx2.now) c6Out1 =
      .ok { c6Out1 with
            gpsOn := true,
            numConnectAttempts := 2, numConnectFailed := 2,
            numConsecutiveConnectFailures := 2,
            lastReportSeconds := c6Now + 570,
            sleepForSeconds := 30 } := by
    rw [normalWake, g1]
    dsimp only
    rw [g2]
    dsimp only
    rw [g3]
    dsimp only
    rw [g4, g5]
    dsimp only
    rw [g6]
  have gcore := loopCore_normal c6Ctx2 c6Out1 (by decide) (by decide) (by decide)
    (by decide) (by decide) (by decide) (by decide)
  rw [loopStep, gcore, gNW]
  dsimp only
  rw [if_neg (by decide)]
  decide

/-- C6 counterexample: two consecutive full-operation wakes without any
motion whose sleep durations go 570 seconds then 30 seconds — successive
no-motion sleeps decrease instead of doubling toward a ceiling. -/
theorem loop_no_motion_backoff_counterexample :
    loopStep c6Ctx1 c6State1 = .ok c6Out1 ∧
    c6Out1.sleepForSeconds = 570 ∧
    ((loopStep c6Ctx2 c6Out1).toOption.map fun t => t.sleepForSeconds) = some 30 ∧
    c6Ctx1.inMotion = false ∧ c6Ctx2.inMotion = false ∧
    c6Ctx2.now = c6Ctx1.now + 570 ∧ (30 : Int) < 570 :=
  ⟨wake1_c6, by decide, wake2_c6, rfl, rfl, by decide, by decide⟩

/-- C7.  Code bug: `numConsecutiveConnectFailures` is incremented by
`connect()` but never read back — `MAX_NUM_CONSECUTIVE_CONNECT_FAILURES`
is compared nowhere in the program — so exceeding the threshold does not
force the modem off.  Concretely: a wake that starts with six consecutive
connect failures on record (already past the threshold of 5) and suffers
four more still ends with `modemStaysAwake = true` (the full-queue rule at
lines 2138-2140 keeps the modem up), the opposite of the claimed power-off
override. -/
theorem consecutive_failures_modem_still_awake :
    ((loopStep c7Ctx c7State).toOption.map fun t =>
        (t.modemStaysAwake, t.numConsecutiveConnectFailures)) = some (true, 10) ∧
    MAX_NUM_CONSECUTIVE_CONNECT_FAILURES < c7State.numConsecutiveConnectFailures := by
  have k1 : nwTelemetry c7Ctx (nwInit c7State) =
      .ok (false, { c7State with sleepForSeconds := 30 }) := by decide
  have k2 : nwStats c7Ctx { c7State with sleepForSeconds := 30 } =
      .ok { c7State with sleepForSeconds := 30 } := by decide
  have k3 : nwGps c7Ctx { c7State with sleepForSeconds := 30 } =
      .ok (false, { c7State with sleepForSeconds := 30 }) := by decide
  have k4 : nwPower c7Ctx { c7State with sleepForSeconds := 30 } =
      { c7State with sleepForSeconds := 30 } := by decide
  have k5 : nwReports c7Ctx false false { c7State with sleepForSeconds := 30 } =
      .ok (false,
      { c7State with
        sleepForSeconds := 30, modemStaysAwake := true,
        numConnectAttempts := 4, numConnectFailed := 4,
        numConsecutiveConnectFailures := 10,
        lastReportSeconds := c6Now }) := by decide
  have k6 : setTimings c7Ctx.now (secondsSinceMidnight c7Ctx.now) false false
      (nwSlow c7Ctx false
        { c7State with
          sleepForSeconds := 30, modemStaysAwake := true,
          numConnectAttempts := 4, numConnectFailed := 4,
          numConsecutiveConnectFailures := 10,
          lastReportSeconds := c6Now }) =
      .ok (600,
      { c7State with
        sleepForSeconds := 30, modemStaysAwake := true,
        numConnectAttempts := 4, numConnectFailed := 4,
        numConsecutiveConnectFailures := 10,
        lastReportSeconds := c6Now }) := by decide
  have kNW : normalWake c7Ctx (secondsSinceMidnight c7Ctx.now) c7State =
      .ok { c7State with
            modemStaysAwake := true,
            numConnectAttempts := 4, numConnectFailed := 4,
            numConsecutiveConnectFailures := 10,
            lastReportSeconds := c6Now,
            sleepForSeconds := 600 } := by
    rw [normalWake, k1]
    dsimp only
    rw [k2]
    dsimp only
    rw [k3]
    dsimp only
    rw [k4, k5]
    dsimp only
    rw [k6]
  have kcore := loopCore_normal c7Ctx c7State (by decide) (by decide) (by decide)
    (by decide) (by decide) (by decide) (by decide)
  rw [loopStep, kcore, kNW]
  dsimp only
  rw [if_neg (by decide)]
  exact ⟨by decide, by decide⟩

end Tracker

